import Mathlib

/-!
Verification development for the billing-event reconciliation flow of the
adob_sense repository.

The repository's server-side billing code is embedded shallowly:

* `pages/api/webhook.ts`        → namespace `Webhook` (signature check, event
  dedup marker, dispatch by event type, user merge-writes);
* `pages/api/stripe-webhook.ts` → namespace `StripeWebhook` (second webhook
  variant, metadata-uid based, no dedup marker);
* `lib/subscriptions.ts` / `lib/subscription.ts` → namespaces `Subscriptions`
  and `SubscriptionLib` (free-trial start);
* `pages/api/checkout.ts`       → namespace `Checkout`;
* `lib/createStripeCustomerForUser.ts` → namespace `CreateCustomer`;
* `pages/api/subscription/refund.ts` (two variants in the repo) →
  namespaces `RefundApi` and `RefundApiB`.

Firestore documents are modelled as association lists of user records with
`set(..., {merge:true})` semantics; the Stripe side is a read-mostly record
of customers / subscriptions / invoices / charges / payment intents, plus
lists that grow when the code creates customers, sessions or refunds.
JavaScript truthiness (`""`, `0`, `null`, `undefined` are falsy) is made
explicit through the `jsStrTruthy` / `natOptTruthy` helpers wherever the
source branches on truthiness.
-/

/-- A Firestore field that the source writes either as a `Date`/`Timestamp`
(milliseconds since epoch) or as an ISO string (the two variants of the code
disagree on the representation). -/
inductive DateVal
  | date (ms : Nat)
  | iso (s : String)
deriving DecidableEq

/-- A visit log entry (`users/{uid}/visits` subcollection,
`pages/api/stripe-webhook.ts`). -/
structure VisitEntry where
  vtype : String
  atMs : Nat
  day : Nat
  month : Nat
  year : Nat
  iso : String
deriving DecidableEq

/-- A library entry (`users/{uid}/library` subcollection,
`pages/api/stripe-webhook.ts`, payment mode). -/
structure LibraryEntry where
  addedAt : Nat
  day : Nat
  month : Nat
  year : Nat
  iso : String
  priceId : Option String
  productId : Option String
  description : Option String
  quantity : Nat
deriving DecidableEq

/-- A user document (`users/{uid}`), restricted to the fields the embedded
code reads or writes.  `none` stands for an absent or null field. -/
structure UserRecord where
  subscriptionType : Option String := none
  subscriptionStatus : Option String := none
  status : Option String := none
  subscriptionEndDate : Option DateVal := none
  subEndIso : Option String := none
  subEndDay : Option Nat := none
  subEndMonth : Option Nat := none
  subEndYear : Option Nat := none
  stripeCustomerId : Option String := none
  stripeSubscriptionId : Option String := none
  stripeId : Option String := none
  subscriptionCancelAt : Option Nat := none
  trialUsed : Option Bool := none
  lastRefundId : Option String := none
  lastRefundAmount : Option Nat := none
  lastRefundAt : Option DateVal := none
  lastDowngradeReason : Option String := none
  email : Option String := none
  createdAt : Option DateVal := none
  updatedAt : Option DateVal := none
  day : Option Nat := none
  month : Option Nat := none
  year : Option Nat := none
  iso : Option String := none
  visits : List VisitEntry := []
  library : List LibraryEntry := []
  playlistDefaultUpdatedAt : Option DateVal := none
deriving DecidableEq

/-- The all-absent document: what `snap.data() || {}` yields for a missing
document, and the base onto which a merge-write creates a new document. -/
def emptyUser : UserRecord := {}

/-- The Firestore database state used by the billing flow: the `users`
collection and the `_stripe_events` processed-event markers
(event id, `processedAt`). -/
structure DB where
  users : List (String × UserRecord) := []
  processedEvents : List (String × Nat) := []
deriving DecidableEq

/-- Read a user document; a missing document reads as the empty record
(the source consistently uses `snap.data() || {}` / optional chaining). -/
def getUser (db : DB) (uid : String) : UserRecord :=
  match db.users.find? (fun p => p.1 = uid) with
  | some p => p.2
  | none => emptyUser

/-- Whether a user document exists (`snap.exists`). -/
def userExists (db : DB) (uid : String) : Bool :=
  (db.users.find? (fun p => p.1 = uid)).isSome

/-- `userRef.set(fields, { merge: true })`: update the document's listed
fields, creating the document from the empty record when absent. -/
def setMerge (db : DB) (uid : String) (f : UserRecord → UserRecord) : DB :=
  if (db.users.find? (fun p => p.1 = uid)).isSome then
    { db with users := db.users.map (fun p => if p.1 = uid then (p.1, f p.2) else p) }
  else
    { db with users := db.users ++ [(uid, f emptyUser)] }

/-- JavaScript truthiness on an optional string: `""`, `null` and
`undefined` are falsy. -/
def jsStrTruthy : Option String → Option String
  | some "" => none
  | some s => some s
  | none => none

/-- JavaScript truthiness on an optional number: `0`, `null` and
`undefined` are falsy. -/
def natOptTruthy : Option Nat → Option Nat
  | some 0 => none
  | some n => some n
  | none => none

/-- `a || dflt` on strings. -/
def jsOrStrD (a : Option String) (dflt : String) : String :=
  (jsStrTruthy a).getD dflt

/-- `a ?? b` on numbers. -/
def jsNullishNat (a b : Option Nat) : Option Nat :=
  match a with
  | some n => some n
  | none => b

/-- `(a || b)` coerced to a number, with `null` coercing to `0`
(this feeds `new Date((a || b) * 1000)` in the source). -/
def jsOrNat (a b : Option Nat) : Nat :=
  match natOptTruthy a with
  | some n => n
  | none => b.getD 0

-- ---- lib/time.ts and lib/dateFields.ts -----------------------------------

/-- `lib/time.ts` `addDays`: calendar-day addition.  Time is modelled as
milliseconds since the epoch in a DST-free (UTC) timezone, where each
calendar day is exactly 86400000 ms, matching `Date.setDate` on a server
running in UTC. -/
def addDays (ms : Nat) (days : Nat) : Nat :=
  ms + days * 86400000

/-- Models `Date.toISOString` as an injective rendering of the instant
(the Gregorian calendar text formatting itself is not modelled). -/
def toISOStringModel (ms : Nat) : String :=
  "iso:" ++ toString ms

/-- Gregorian civil date (year, month, day) from days since 1970-01-01,
as computed by the standard civil-from-days algorithm; models the
`getUTCFullYear`/`getUTCMonth`/`getUTCDate` reads in `lib/dateFields.ts`. -/
def civilFromDays (z : Nat) : Nat × Nat × Nat :=
  let z' := z + 719468
  let era := z' / 146097
  let doe := z' % 146097
  let yoe := (doe - doe / 1460 + doe / 36524 - doe / 146096) / 365
  let y := yoe + era * 400
  let doy := doe - (365 * yoe + yoe / 4 - yoe / 100)
  let mp := (5 * doy + 2) / 153
  let d := doy - (153 * mp + 2) / 5 + 1
  let m := if mp < 10 then mp + 3 else mp - 9
  (if m ≤ 2 then y + 1 else y, m, d)

/-- Result of `lib/dateFields.ts` `dateFields`. -/
structure DateParts where
  day : Nat
  month : Nat
  year : Nat
  iso : String
deriving DecidableEq

/-- `lib/dateFields.ts` `dateFields`: UTC day/month/year plus the ISO
rendering of the instant. -/
def dateFields (ms : Nat) : DateParts :=
  let c := civilFromDays (ms / 86400000)
  { day := c.2.2, month := c.2.1, year := c.1, iso := toISOStringModel ms }

-- ---- Stripe-side data ----------------------------------------------------

/-- A Stripe customer, restricted to the fields the code reads. -/
structure StripeCustomer where
  id : String
  email : Option String := none
  metadata_uid : Option String := none
deriving DecidableEq

/-- A Stripe subscription, restricted to the fields the code reads
(`items.data[0]?.price?.id` is flattened to `priceId`). -/
structure StripeSubscription where
  id : String
  customer : String
  priceId : Option String := none
  current_period_end : Option Nat := none
  status : String := "active"
  cancel_at_period_end : Bool := false
  cancel_at : Option Nat := none
  metadata_uid : Option String := none
  metadata_tierKey : Option String := none
deriving DecidableEq

/-- A Stripe invoice, restricted to the fields the code reads. -/
structure StripeInvoice where
  id : String
  customer : String
  subscription : Option String := none
  payment_intent : Option String := none
  status : String := "paid"
deriving DecidableEq

/-- A Stripe charge, restricted to the fields the code reads.
`amount_refunded` is optional because the webhook accesses it through an
untyped cast (`event.data.object as any`) and guards with `?? 0`. -/
structure StripeCharge where
  id : String
  customer : Option String := none
  amount : Nat := 0
  amount_refunded : Option Nat := none
deriving DecidableEq

/-- A Stripe payment intent (`latest_charge` covers both the string id and
the expanded-object form, which the source normalises to an id). -/
structure StripePaymentIntent where
  id : String
  latest_charge : Option String := none
deriving DecidableEq

/-- A refund object as created by `stripe.refunds.create` or carried by a
`refund.created` event (`charge` is the charge id). -/
structure StripeRefund where
  id : String
  charge : String
  amount : Nat
deriving DecidableEq

/-- A checkout-session line item (`listLineItems`). -/
structure LineItem where
  priceId : Option String := none
  description : Option String := none
  quantity : Option Nat := none
deriving DecidableEq

/-- A checkout session created by `pages/api/checkout.ts`. -/
structure CheckoutSessionRec where
  id : String
  customer : String
  price : String
  tier : String
  uid : String
deriving DecidableEq

/-- The Stripe account state visible to the embedded code.  The list heads
are the most recent objects (Stripe's `list` endpoints return newest
first).  `nextId` feeds fresh vendor-generated identifiers. -/
structure StripeState where
  customers : List StripeCustomer := []
  subscriptions : List StripeSubscription := []
  invoices : List StripeInvoice := []
  charges : List StripeCharge := []
  paymentIntents : List StripePaymentIntent := []
  refunds : List StripeRefund := []
  lineItems : List (String × LineItem) := []
  checkoutSessions : List CheckoutSessionRec := []
  nextId : Nat := 0
deriving DecidableEq

/-- The whole world: local database plus the external Stripe state. -/
structure World where
  db : DB := {}
  stripe : StripeState := {}
deriving DecidableEq

-- ---- Webhook events and the raw request body -----------------------------

/-- A `checkout.session.completed` payload, restricted to the fields the
two webhook variants read. -/
structure CheckoutSession where
  id : String
  customer : String
  subscription : Option String := none
  mode : String := "subscription"
  client_reference_id : Option String := none
  metadata_uid : Option String := none
  metadata_tierKey : Option String := none
  metadata_productId : Option String := none
deriving DecidableEq

/-- `event.data.object`, one payload kind per family of event types (the
source casts the untyped object according to `event.type`; per Stripe's
contract the payload kind always matches the event type). -/
inductive StripeObj
  | session (s : CheckoutSession)
  | sub (s : StripeSubscription)
  | invoice (i : StripeInvoice)
  | charge (c : StripeCharge)
  | refund (r : StripeRefund)
deriving DecidableEq

/-- A webhook event envelope. -/
structure Event where
  id : String
  type : String
  obj : StripeObj
deriving DecidableEq

-- Byte-level encoding of the envelope: the raw request body is a list of
-- bytes; the signature is an HMAC over exactly these bytes.

def encStr (s : String) : List Nat :=
  s.length :: s.data.map Char.toNat

def encNat (n : Nat) : List Nat := [n]

def encBool (b : Bool) : List Nat := [cond b 1 0]

def encOptNat : Option Nat → List Nat
  | none => [0]
  | some n => [1, n]

def encOptStr : Option String → List Nat
  | none => [0]
  | some s => 1 :: encStr s

def decStr : List Nat → Option (String × List Nat)
  | [] => none
  | n :: r =>
    if n ≤ r.length then
      some (String.mk ((r.take n).map Char.ofNat), r.drop n)
    else none

def decNat : List Nat → Option (Nat × List Nat)
  | [] => none
  | n :: r => some (n, r)

def decBool : List Nat → Option (Bool × List Nat)
  | 0 :: r => some (false, r)
  | 1 :: r => some (true, r)
  | _ => none

def decOptNat : List Nat → Option (Option Nat × List Nat)
  | 0 :: r => some (none, r)
  | 1 :: n :: r => some (some n, r)
  | _ => none

def decOptStr : List Nat → Option (Option String × List Nat)
  | 0 :: r => some (none, r)
  | 1 :: r => (decStr r).map (fun p => (some p.1, p.2))
  | _ => none

def encSession (s : CheckoutSession) : List Nat :=
  encStr s.id ++ encStr s.customer ++ encOptStr s.subscription ++ encStr s.mode ++
    encOptStr s.client_reference_id ++ encOptStr s.metadata_uid ++
    encOptStr s.metadata_tierKey ++ encOptStr s.metadata_productId

def decSession (l : List Nat) : Option (CheckoutSession × List Nat) := do
  let (id, l) ← decStr l
  let (customer, l) ← decStr l
  let (subscription, l) ← decOptStr l
  let (mode, l) ← decStr l
  let (cri, l) ← decOptStr l
  let (mu, l) ← decOptStr l
  let (mt, l) ← decOptStr l
  let (mp, l) ← decOptStr l
  some (⟨id, customer, subscription, mode, cri, mu, mt, mp⟩, l)

def encSub (s : StripeSubscription) : List Nat :=
  encStr s.id ++ encStr s.customer ++ encOptStr s.priceId ++
    encOptNat s.current_period_end ++ encStr s.status ++
    encBool s.cancel_at_period_end ++ encOptNat s.cancel_at ++
    encOptStr s.metadata_uid ++ encOptStr s.metadata_tierKey

def decSub (l : List Nat) : Option (StripeSubscription × List Nat) := do
  let (id, l) ← decStr l
  let (customer, l) ← decStr l
  let (priceId, l) ← decOptStr l
  let (cpe, l) ← decOptNat l
  let (status, l) ← decStr l
  let (cape, l) ← decBool l
  let (ca, l) ← decOptNat l
  let (mu, l) ← decOptStr l
  let (mt, l) ← decOptStr l
  some (⟨id, customer, priceId, cpe, status, cape, ca, mu, mt⟩, l)

def encInvoice (i : StripeInvoice) : List Nat :=
  encStr i.id ++ encStr i.customer ++ encOptStr i.subscription ++
    encOptStr i.payment_intent ++ encStr i.status

def decInvoice (l : List Nat) : Option (StripeInvoice × List Nat) := do
  let (id, l) ← decStr l
  let (customer, l) ← decStr l
  let (subscription, l) ← decOptStr l
  let (pi, l) ← decOptStr l
  let (status, l) ← decStr l
  some (⟨id, customer, subscription, pi, status⟩, l)

def encCharge (c : StripeCharge) : List Nat :=
  encStr c.id ++ encOptStr c.customer ++ encNat c.amount ++ encOptNat c.amount_refunded

def decCharge (l : List Nat) : Option (StripeCharge × List Nat) := do
  let (id, l) ← decStr l
  let (customer, l) ← decOptStr l
  let (amount, l) ← decNat l
  let (ar, l) ← decOptNat l
  some (⟨id, customer, amount, ar⟩, l)

def encRefund (r : StripeRefund) : List Nat :=
  encStr r.id ++ encStr r.charge ++ encNat r.amount

def decRefund (l : List Nat) : Option (StripeRefund × List Nat) := do
  let (id, l) ← decStr l
  let (charge, l) ← decStr l
  let (amount, l) ← decNat l
  some (⟨id, charge, amount⟩, l)

def encObj : StripeObj → List Nat
  | .session s => 0 :: encSession s
  | .sub s => 1 :: encSub s
  | .invoice i => 2 :: encInvoice i
  | .charge c => 3 :: encCharge c
  | .refund r => 4 :: encRefund r

def decObj : List Nat → Option (StripeObj × List Nat)
  | 0 :: r => (decSession r).map (fun p => (.session p.1, p.2))
  | 1 :: r => (decSub r).map (fun p => (.sub p.1, p.2))
  | 2 :: r => (decInvoice r).map (fun p => (.invoice p.1, p.2))
  | 3 :: r => (decCharge r).map (fun p => (.charge p.1, p.2))
  | 4 :: r => (decRefund r).map (fun p => (.refund p.1, p.2))
  | _ => none

/-- Serialise an event envelope to the raw request body. -/
def encEvent (e : Event) : List Nat :=
  encStr e.id ++ encStr e.type ++ encObj e.obj

/-- Parse the raw request body into an event envelope. -/
def decEvent (l : List Nat) : Option Event := do
  let (id, l) ← decStr l
  let (ty, l) ← decStr l
  let (obj, l) ← decObj l
  if l.isEmpty then some ⟨id, ty, obj⟩ else none

/-- Modelled from the spec: the HMAC that `stripe.webhooks.constructEvent`
computes over the raw body with the shared secret (the Stripe SDK itself is
vendor code, not part of this repository).  It is idealised as a
collision-free MAC: for a fixed secret, distinct bodies give distinct
MACs. -/
def hmacModel (secret body : List Nat) : List Nat :=
  secret.length :: (secret ++ body)

/-- Modelled from the spec: `stripe.webhooks.constructEvent(raw, sig,
secret)` — verification fails (`none`) unless the signature header equals
the HMAC over the raw, unre-serialised body; on success the body is parsed
into the event envelope. -/
def constructEvent (secret raw sig : List Nat) : Option Event :=
  if sig = hmacModel secret raw then decEvent raw else none

-- ---- Environment configuration -------------------------------------------

/-- The environment-supplied configuration: one price id per tier
(`NEXT_PUBLIC_STRIPE_PRICE_*`, absent when the variable is unset), the
webhook shared secret, and the site URL. -/
structure Config where
  priceAdobSense : Option String := none
  priceDobeOne : Option String := none
  priceDemandX : Option String := none
  webhookSecret : List Nat := []
  siteUrl : String := ""
deriving DecidableEq

/-- The key a possibly-unset env value contributes to the
`PRICE_TO_TIER` object literal (an unset variable coerces to the string
`"undefined"` as a computed key). -/
def priceKey : Option String → String
  | some s => s
  | none => "undefined"

/-- `PRICE_TO_TIER` of `pages/api/webhook.ts`: price id → tier name.
Later entries of the object literal win on duplicate keys, so the
`DEMANDX` entry is checked first.  The JavaScript lookup would also yield
truthy inherited `Object.prototype` members for price ids such as
`"constructor"`; price ids come from the payment processor (`price_…`
strings), and none of the judged conclusions depend on that branch, so the
lookup is modelled on its own keys only. -/
def priceToTier (cfg : Config) (pid : String) : Option String :=
  if pid = priceKey cfg.priceDemandX then some "DEMANDX"
  else if pid = priceKey cfg.priceDobeOne then some "DOBE_ONE"
  else if pid = priceKey cfg.priceAdobSense then some "ADOB_SENSE"
  else none

-- ---- pages/api/webhook.ts -------------------------------------------------

namespace Webhook

/-- The responses `pages/api/webhook.ts` can send. -/
inductive Resp
  | ok (duplicate : Bool)
  | sigErr
  | handlerErr (msg : String)
deriving DecidableEq

/-- HTTP status code of each response (200 / 400 / 500 in the source). -/
def Resp.statusCode : Resp → Nat
  | .ok _ => 200
  | .sigErr => 400
  | .handlerErr _ => 500

/-- `getUserRefForCustomer`: primary lookup by stored `stripeCustomerId`,
fallback through the Stripe customer's `metadata.uid`; retrieving a
nonexistent customer throws (`.error`), which the outer catch turns into a
500. -/
def getUserRefForCustomer (w : World) (customerId : String) :
    Except String (Option String) :=
  match w.db.users.find? (fun p => p.2.stripeCustomerId = some customerId) with
  | some p => .ok (some p.1)
  | none =>
    match w.stripe.customers.find? (fun c => c.id = customerId) with
    | none => .error "No such customer"
    | some c => .ok (jsStrTruthy c.metadata_uid)

/-- `setUserSubscription`: merge-write tier, status, period end (unix
seconds → Date, with `0` falsy), Stripe ids and `updatedAt`. -/
def setUserSubscription (db : DB) (now : Nat) (uid : String) (tier : String)
    (currentPeriodEnd : Option Nat) (status : String)
    (stripeCustomerId : Option String) (subscriptionId : Option String) : DB :=
  setMerge db uid (fun u =>
    { u with
      subscriptionType := some tier
      subscriptionStatus := some status
      subscriptionEndDate := (natOptTruthy currentPeriodEnd).map (fun e => DateVal.date (e * 1000))
      stripeCustomerId := stripeCustomerId
      stripeSubscriptionId := subscriptionId
      updatedAt := some (.date now) })

/-- `setUserToFree`: immediate downgrade to the free tier label
`"HIPSESSION"`, status `"canceled"`, `subscriptionEndDate: null`, recording
the downgrade reason. -/
def setUserToFree (db : DB) (now : Nat) (uid : String) (reason : String) : DB :=
  setMerge db uid (fun u =>
    { u with
      subscriptionType := some "HIPSESSION"
      subscriptionStatus := some "canceled"
      subscriptionEndDate := none
      updatedAt := some (.date now)
      lastDowngradeReason := some reason })

/-- `alreadyProcessed`: look up the `_stripe_events` marker; if absent,
write it (with `processedAt`) and report `false`. -/
def alreadyProcessed (db : DB) (now : Nat) (eventId : String) : Bool × DB :=
  if (db.processedEvents.find? (fun p => p.1 = eventId)).isSome then
    (true, db)
  else
    (false, { db with processedEvents := db.processedEvents ++ [(eventId, now)] })

/-- `stripe.subscriptions.retrieve` on an optional id (`if (subId) ...`);
a present id that does not exist on the Stripe side throws. -/
def retrieveSubOpt (st : StripeState) : Option String →
    Except String (Option StripeSubscription)
  | none => .ok none
  | some sid =>
    match st.subscriptions.find? (fun s => s.id = sid) with
    | some s => .ok (some s)
    | none => .error "No such subscription"

/-- The `checkout.session.completed` case. -/
def checkoutCompletedE (cfg : Config) (w : World) (now : Nat)
    (s : CheckoutSession) : Except String World :=
  let customerId := s.customer
  match retrieveSubOpt w.stripe (jsStrTruthy s.subscription) with
  | .error m => .error m
  | .ok sub? =>
    match getUserRefForCustomer w customerId with
    | .error m => .error m
    | .ok none => .ok w
    | .ok (some uid) =>
      let tier := (sub?.bind (fun sub => jsStrTruthy sub.priceId)).bind (priceToTier cfg)
      let endU := sub?.bind (fun sub => sub.current_period_end)
      let status := (sub?.map (fun sub => sub.status)).getD "active"
      match tier with
      | some t =>
        .ok { w with db := (setUserSubscription w.db now uid t endU status
                (some customerId) (sub?.map (fun sub => sub.id))) }
      | none =>
        .ok { w with db := setMerge w.db uid (fun u =>
                { u with
                  stripeCustomerId := some customerId
                  stripeSubscriptionId := sub?.map (fun sub => sub.id)
                  subscriptionStatus := some status
                  subscriptionEndDate := (natOptTruthy endU).map (fun n => DateVal.date (n * 1000))
                  updatedAt := some (.date now) }) }

/-- The `customer.subscription.created` / `customer.subscription.updated`
case. -/
def subUpsertE (cfg : Config) (w : World) (now : Nat)
    (sub : StripeSubscription) : Except String World :=
  match getUserRefForCustomer w sub.customer with
  | .error m => .error m
  | .ok none => .ok w
  | .ok (some uid) =>
    let tier := (jsStrTruthy sub.priceId).bind (priceToTier cfg)
    if sub.cancel_at_period_end then
      .ok { w with db := setMerge w.db uid (fun u =>
              { u with
                subscriptionCancelAt := jsNullishNat sub.cancel_at sub.current_period_end
                subscriptionStatus := some sub.status
                subscriptionEndDate := some (.date (1000 * jsOrNat sub.current_period_end sub.cancel_at))
                updatedAt := some (.date now) }) }
    else
      match tier with
      | some t =>
        .ok { w with db := (setUserSubscription w.db now uid t
                sub.current_period_end sub.status (some sub.customer) (some sub.id)) }
      | none =>
        .ok { w with db := setMerge w.db uid (fun u =>
                { u with
                  subscriptionStatus := some sub.status
                  subscriptionEndDate := (natOptTruthy sub.current_period_end).map (fun n => DateVal.date (n * 1000))
                  stripeSubscriptionId := some sub.id
                  updatedAt := some (.date now) }) }

/-- The `customer.subscription.deleted` case: immediate downgrade. -/
def subDeletedE (w : World) (now : Nat) (sub : StripeSubscription) :
    Except String World :=
  match getUserRefForCustomer w sub.customer with
  | .error m => .error m
  | .ok none => .ok w
  | .ok (some uid) =>
    .ok { w with db := setUserToFree w.db now uid "subscription.deleted" }

/-- The `invoice.payment_succeeded` case (renewal). -/
def invoicePaidE (cfg : Config) (w : World) (now : Nat) (inv : StripeInvoice) :
    Except String World :=
  match jsStrTruthy inv.subscription with
  | none => .ok w
  | some sid =>
    match w.stripe.subscriptions.find? (fun s => s.id = sid) with
    | none => .error "No such subscription"
    | some sub =>
      match getUserRefForCustomer w sub.customer with
      | .error m => .error m
      | .ok none => .ok w
      | .ok (some uid) =>
        match (jsStrTruthy sub.priceId).bind (priceToTier cfg) with
        | some t =>
          .ok { w with db := (setUserSubscription w.db now uid t
                  sub.current_period_end sub.status (some sub.customer) (some sub.id)) }
        | none => .ok w

/-- The `invoice.payment_failed` case: mark past-due only. -/
def invoiceFailedE (w : World) (now : Nat) (inv : StripeInvoice) :
    Except String World :=
  match jsStrTruthy inv.subscription with
  | none => .ok w
  | some sid =>
    match w.stripe.subscriptions.find? (fun s => s.id = sid) with
    | none => .error "No such subscription"
    | some sub =>
      match getUserRefForCustomer w sub.customer with
      | .error m => .error m
      | .ok none => .ok w
      | .ok (some uid) =>
        .ok { w with db := setMerge w.db uid (fun u =>
                { u with
                  subscriptionStatus := some "past_due"
                  updatedAt := some (.date now) }) }

/-- The shared tail of the charge/refund cases: resolve the user from the
charge's customer, then write the refund audit fields, marking the status
`"refunded"` exactly when `amount_refunded` is truthy and equal to
`amount`. -/
def chargeFlow (w : World) (now : Nat) (ch : StripeCharge) :
    Except String World :=
  match jsStrTruthy ch.customer with
  | none => .ok w
  | some cid =>
    match getUserRefForCustomer w cid with
    | .error m => .error m
    | .ok none => .ok w
    | .ok (some uid) =>
      let isFullRefund :=
        match ch.amount_refunded with
        | some n => decide (n ≠ 0) && decide (n = ch.amount)
        | none => false
      if isFullRefund then
        .ok { w with db := setMerge w.db uid (fun u =>
                { u with
                  lastRefundAt := some (.date now)
                  lastRefundAmount := ch.amount_refunded
                  subscriptionStatus := some "refunded"
                  updatedAt := some (.date now) }) }
      else
        .ok { w with db := setMerge w.db uid (fun u =>
                { u with
                  lastRefundAt := some (.date now)
                  lastRefundAmount := some (ch.amount_refunded.getD 0)
                  updatedAt := some (.date now) }) }

/-- The event-type dispatch (`switch (event.type)`); unhandled types and
payload kinds that cannot arise for the matched type are no-ops. -/
def dispatchE (cfg : Config) (w : World) (now : Nat) (e : Event) :
    Except String World :=
  if e.type = "checkout.session.completed" then
    match e.obj with
    | .session s => checkoutCompletedE cfg w now s
    | _ => .ok w
  else if e.type = "customer.subscription.created" ∨
      e.type = "customer.subscription.updated" then
    match e.obj with
    | .sub sub => subUpsertE cfg w now sub
    | _ => .ok w
  else if e.type = "customer.subscription.deleted" then
    match e.obj with
    | .sub sub => subDeletedE w now sub
    | _ => .ok w
  else if e.type = "invoice.payment_succeeded" then
    match e.obj with
    | .invoice inv => invoicePaidE cfg w now inv
    | _ => .ok w
  else if e.type = "invoice.payment_failed" then
    match e.obj with
    | .invoice inv => invoiceFailedE w now inv
    | _ => .ok w
  else if e.type = "charge.refunded" ∨ e.type = "charge.refund.updated" then
    match e.obj with
    | .charge ch => chargeFlow w now ch
    | _ => .ok w
  else if e.type = "refund.created" then
    match e.obj with
    | .refund r =>
      match w.stripe.charges.find? (fun c => c.id = r.charge) with
      | none => .error "No such charge"
      | some ch => chargeFlow w now ch
    | _ => .ok w
  else .ok w

/-- The full handler: signature verification on the raw body, then the
idempotency marker, then dispatch; dispatch errors surface as 500 with the
marker already written. -/
def handler (cfg : Config) (w : World) (now : Nat) (raw sig : List Nat) :
    World × Resp :=
  match constructEvent cfg.webhookSecret raw sig with
  | none => (w, .sigErr)
  | some e =>
    match alreadyProcessed w.db now e.id with
    | (true, _) => (w, .ok true)
    | (false, db') =>
      let w' := { w with db := db' }
      match dispatchE cfg w' now e with
      | .ok w'' => (w'', .ok false)
      | .error m => (w', .handlerErr m)

end Webhook

-- ---- pages/api/stripe-webhook.ts -----------------------------------------

namespace StripeWebhook

/-- The responses `pages/api/stripe-webhook.ts` can send. -/
inductive Resp
  | received
  | sigErr
  | failed500
deriving DecidableEq

/-- HTTP status code of each response. -/
def Resp.statusCode : Resp → Nat
  | .received => 200
  | .sigErr => 400
  | .failed500 => 500

/-- `(s.data.map Char.toUpper)`: models `String.prototype.toUpperCase` on
the ASCII status strings the code handles. -/
def toUpperModel (s : String) : String :=
  String.mk (s.data.map Char.toUpper)

/-- The `checkout.session.completed` branch: log a visit, then either the
subscription baseline write or the payment-mode library mirror. -/
def checkoutCompleted (w : World) (now : Nat) (s : CheckoutSession) :
    World × Resp :=
  let uid := jsOrStrD s.client_reference_id (jsOrStrD s.metadata_uid "")
  if uid = "" then (w, .received)
  else
    let df := dateFields now
    let w1 := { w with db := setMerge w.db uid (fun u =>
                 { u with visits := u.visits ++
                     [⟨"checkout.session.completed", now, df.day, df.month, df.year, df.iso⟩] }) }
    if s.mode = "subscription" then
      ({ w1 with db := setMerge w1.db uid (fun u =>
           { u with
             subscriptionType := some (jsOrStrD s.metadata_tierKey "ADOB_SENSE")
             status := some "ACTIVE"
             stripeId := some s.customer
             updatedAt := some (.date now)
             day := some df.day
             month := some df.month
             year := some df.year }) }, .received)
    else if s.mode = "payment" then
      let productId := jsStrTruthy s.metadata_productId
      let items := ((w1.stripe.lineItems.filter (fun p => p.1 = s.id)).take 50).map (fun p => p.2)
      ({ w1 with db := setMerge w1.db uid (fun u =>
           { u with
             library := u.library ++ items.map (fun li =>
               ⟨now, df.day, df.month, df.year, df.iso, li.priceId, productId,
                li.description, li.quantity.getD 1⟩)
             playlistDefaultUpdatedAt := some (.date now) }) }, .received)
    else (w1, .received)

/-- The `customer.subscription.created` / `customer.subscription.updated`
branch. -/
def subUpsert (w : World) (now : Nat) (sub : StripeSubscription) :
    World × Resp :=
  let uid := jsOrStrD sub.metadata_uid ""
  if uid = "" then (w, .received)
  else
    let endMs := (natOptTruthy sub.current_period_end).map (fun n => n * 1000)
    let df := dateFields (endMs.getD now)
    ({ w with db := setMerge w.db uid (fun u =>
         { u with
           subscriptionType := some (jsOrStrD sub.metadata_tierKey "ADOB_SENSE")
           status := some (toUpperModel (jsOrStrD (some sub.status) "active"))
           subscriptionEndDate := endMs.map DateVal.date
           subEndIso := endMs.map toISOStringModel
           subEndDay := endMs.map (fun _ => df.day)
           subEndMonth := endMs.map (fun _ => df.month)
           subEndYear := endMs.map (fun _ => df.year)
           stripeId := some sub.customer
           updatedAt := some (.date now) }) }, .received)

/-- The `customer.subscription.deleted` branch: write the fallback tier
label and ACTIVE status (this variant clears neither the period end nor
records a downgrade reason). -/
def subDeleted (w : World) (now : Nat) (sub : StripeSubscription) :
    World × Resp :=
  let uid := jsOrStrD sub.metadata_uid ""
  if uid = "" then (w, .received)
  else
    let df := dateFields now
    ({ w with db := setMerge w.db uid (fun u =>
         { u with
           subscriptionType := some "DIGITAL+XIIBIITKEY"
           status := some "ACTIVE"
           updatedAt := some (.date now)
           day := some df.day
           month := some df.month
           year := some df.year
           iso := some df.iso }) }, .received)

/-- The dispatch after signature verification (this variant has no
processed-event marker). -/
def handlerVerified (w : World) (now : Nat) (e : Event) : World × Resp :=
  if e.type = "checkout.session.completed" then
    match e.obj with
    | .session s => checkoutCompleted w now s
    | _ => (w, .received)
  else if e.type = "customer.subscription.created" ∨
      e.type = "customer.subscription.updated" then
    match e.obj with
    | .sub sub => subUpsert w now sub
    | _ => (w, .received)
  else if e.type = "customer.subscription.deleted" then
    match e.obj with
    | .sub sub => subDeleted w now sub
    | _ => (w, .received)
  else (w, .received)

/-- The full handler: signature verification on the raw body, then the
sequential event-type checks. -/
def handler (cfg : Config) (w : World) (now : Nat) (raw sig : List Nat) :
    World × Resp :=
  match constructEvent cfg.webhookSecret raw sig with
  | none => (w, .sigErr)
  | some e => handlerVerified w now e

end StripeWebhook

-- ---- lib/subscriptions.ts and lib/subscription.ts -------------------------

namespace Subscriptions

/-- `lib/subscriptions.ts` `startFreeTrial`: refuse when `trialUsed` is
strictly `true`; otherwise merge-write the FREETRIAL fields (including the
legacy string-valued `subscriptionEndDate`) and return the trial-end ISO
string.  The thrown error is modelled as the `Except.error` result with the
database unchanged (the throw happens before any write). -/
def startFreeTrial (db : DB) (now : Nat) (uid : String) :
    DB × Except String String :=
  let user := getUser db uid
  if user.trialUsed = some true then
    (db, .error "Free trial already used.")
  else
    let endMs := addDays now 7
    let endIso := toISOStringModel endMs
    (setMerge db uid (fun u =>
       { u with
         subscriptionType := some "FREETRIAL"
         subEndIso := some endIso
         subscriptionEndDate := some (.iso endIso)
         status := some "ACTIVE"
         trialUsed := some true
         updatedAt := some (.iso (toISOStringModel now)) }),
     .ok endIso)

/-- `lib/subscriptions.ts` `isActive`: the stored end instant is strictly
in the future (string-encoded instants compare by their underlying
millisecond value). -/
def isActive (endMs : Option Nat) (now : Nat) : Bool :=
  match endMs with
  | none => false
  | some e => now < e

end Subscriptions

namespace SubscriptionLib

/-- `lib/subscription.ts` `startFreeTrial` (the second variant; it does not
write the legacy `subscriptionEndDate` field). -/
def startFreeTrial (db : DB) (now : Nat) (uid : String) :
    DB × Except String String :=
  let user := getUser db uid
  if user.trialUsed = some true then
    (db, .error "Free trial already used.")
  else
    let endIso := toISOStringModel (addDays now 7)
    (setMerge db uid (fun u =>
       { u with
         subscriptionType := some "FREETRIAL"
         subEndIso := some endIso
         status := some "ACTIVE"
         trialUsed := some true
         updatedAt := some (.iso (toISOStringModel now)) }),
     .ok endIso)

end SubscriptionLib

-- ---- pages/api/checkout.ts ------------------------------------------------

namespace Checkout

/-- The request query (`?tier=...&uid=...`). -/
structure Query where
  tier : Option String := none
  uid : Option String := none
deriving DecidableEq

/-- The responses `pages/api/checkout.ts` can send.  `errorNoReply` models
the handler's catch block, which only logs the error and sends no response
at all. -/
inductive Resp
  | unknownTier
  | authRequired
  | redirect303 (url : String)
  | okUrl (url : Option String)
  | errorNoReply
deriving DecidableEq

/-- HTTP status code of each response (400 / 401 / 303 / 200; the
no-response catch path surfaces as the platform's 500). -/
def Resp.statusCode : Resp → Nat
  | .unknownTier => 400
  | .authRequired => 401
  | .redirect303 _ => 303
  | .okUrl _ => 200
  | .errorNoReply => 500

/-- The own entries of the `PRICE_MAP` object literal: tier selector →
configured price id (absent env values stay absent). -/
def priceMap (cfg : Config) (tier : String) : Option String :=
  match tier with
  | "ADOB_SENSE" => cfg.priceAdobSense
  | "DOBE_ONE" => cfg.priceDobeOne
  | "DEMANDX" => cfg.priceDemandX
  | _ => none

/-- A value produced by a JavaScript object-literal property read: either
an own string property, or a member inherited from `Object.prototype`
(a function or object — truthy, and not a string). -/
inductive JsProp
  | str (s : String)
  | protoMember (name : String)
deriving DecidableEq

/-- The property names every object literal inherits from
`Object.prototype`; reading them yields a truthy non-string member. -/
def objectProtoProps : List String :=
  ["constructor", "hasOwnProperty", "isPrototypeOf", "propertyIsEnumerable",
   "toLocaleString", "toString", "valueOf", "__proto__", "__defineGetter__",
   "__defineSetter__", "__lookupGetter__", "__lookupSetter__"]

/-- `PRICE_MAP[tier]` with full JavaScript property-lookup semantics: an
own key yields the configured (possibly absent) price id, any other
selector naming an `Object.prototype` member yields that inherited member,
and everything else is `undefined`. -/
def priceMapGet (cfg : Config) (tier : String) : Option JsProp :=
  match tier with
  | "ADOB_SENSE" => cfg.priceAdobSense.map JsProp.str
  | "DOBE_ONE" => cfg.priceDobeOne.map JsProp.str
  | "DEMANDX" => cfg.priceDemandX.map JsProp.str
  | t => if t ∈ objectProtoProps then some (JsProp.protoMember t) else none

/-- JavaScript truthiness of a property-read result: `undefined` and `""`
are falsy; inherited prototype members are truthy. -/
def jsPropTruthy (o : Option JsProp) : Option JsProp :=
  match o with
  | some (JsProp.str s) => if s = "" then none else some (JsProp.str s)
  | some (JsProp.protoMember n) => some (JsProp.protoMember n)
  | none => none

/-- Whether `needle` occurs as a contiguous subsequence of `hay`. -/
def containsSeq (needle : List Char) : List Char → Bool
  | [] => needle.isEmpty
  | c :: rest => needle.isPrefixOf (c :: rest) || containsSeq needle rest

/-- Substring test for the `accept` header check
(`accept.includes("text/html")`). -/
def strContains (hay needle : String) : Bool :=
  containsSeq needle.data hay.data

/-- The checkout handler: guard the tier mapping (with JavaScript lookup
semantics: an `Object.prototype` member name passes the `if (!price)`
guard) and the user id, then resolve-or-create the Stripe customer
(persisting a fresh id), create the hosted checkout session, and answer
with a 303 redirect for HTML GETs or the session URL as JSON otherwise.
The hosted URL string is vendor-generated; it is modelled from the created
session's id.  A non-string inherited member is not a serialisable price
parameter, so the vendor call fails and the catch block logs without
replying. -/
def handler (cfg : Config) (w : World) (now : Nat) (method accept : String)
    (q : Query) : World × Resp :=
  let tier := jsOrStrD q.tier "ADOB_SENSE"
  match jsPropTruthy (priceMapGet cfg tier) with
  | none => (w, .unknownTier)
  | some price =>
    let uid := jsOrStrD q.uid ""
    if uid = "" then (w, .authRequired)
    else
      let userData? := (w.db.users.find? (fun p => p.1 = uid)).map (fun p => p.2)
      let stored := jsStrTruthy (userData?.bind (fun u => u.stripeCustomerId))
      let step1 : String × World :=
        match stored with
        | some c => (c, w)
        | none =>
          let email := jsStrTruthy (userData?.bind (fun u => u.email))
          let newId := "cus_" ++ toString w.stripe.nextId
          let st := { w.stripe with
                      customers := w.stripe.customers ++ [⟨newId, email, some uid⟩]
                      nextId := w.stripe.nextId + 1 }
          let db := setMerge w.db uid (fun u =>
                      { u with
                        stripeCustomerId := some newId
                        updatedAt := some (.date now) })
          (newId, { db := db, stripe := st })
      let customerId := step1.1
      let w1 := step1.2
      match price with
      | JsProp.protoMember _ => (w1, .errorNoReply)
      | JsProp.str ps =>
        let sessId := "cs_" ++ toString w1.stripe.nextId
        let url := cfg.siteUrl ++ "/checkout/" ++ sessId
        let w2 := { w1 with stripe := { w1.stripe with
                      checkoutSessions := w1.stripe.checkoutSessions ++
                        [⟨sessId, customerId, ps, tier, uid⟩]
                      nextId := w1.stripe.nextId + 1 } }
        if strContains accept "text/html" ∧ method = "GET" then
          (w2, .redirect303 url)
        else
          (w2, .okUrl (some url))

end Checkout

-- ---- lib/createStripeCustomerForUser.ts -----------------------------------

namespace CreateCustomer

/-- `createStripeCustomerForUser`: return the stored customer id when the
document exists and holds a truthy `stripeCustomerId`; otherwise create a
Stripe customer tagged with the uid and persist its id (with the email, or
null, and a server timestamp). -/
def createStripeCustomerForUser (w : World) (now : Nat) (uid : String)
    (email : Option String) : World × String :=
  let snap := w.db.users.find? (fun p => p.1 = uid)
  match snap.bind (fun p => jsStrTruthy p.2.stripeCustomerId) with
  | some c => (w, c)
  | none =>
    let newId := "cus_" ++ toString w.stripe.nextId
    let st := { w.stripe with
                customers := w.stripe.customers ++ [⟨newId, email, some uid⟩]
                nextId := w.stripe.nextId + 1 }
    let db := setMerge w.db uid (fun u =>
                { u with
                  stripeCustomerId := some newId
                  email := jsStrTruthy email
                  createdAt := some (.date now) })
    ({ db := db, stripe := st }, newId)

end CreateCustomer

-- ---- pages/api/subscription/refund.ts (both variants) ---------------------

/-- The POST body of the refund endpoint. -/
structure RefundBody where
  uid : Option String := none
  amount : Option Nat := none
  chargeId : Option String := none
deriving DecidableEq

namespace RefundApi

/-- The responses the refund endpoints can send. -/
inductive Resp
  | methodNotAllowed
  | missingUid
  | noCustomer
  | noCharge
  | refunded (refundId : String)
  | err500 (msg : String)
deriving DecidableEq

/-- HTTP status code of each response (405 / 400 / 200 / 500). -/
def Resp.statusCode : Resp → Nat
  | .methodNotAllowed => 405
  | .missingUid => 400
  | .noCustomer => 400
  | .noCharge => 400
  | .refunded _ => 200
  | .err500 _ => 500

/-- `stripe.refunds.create` followed by the audit merge-write, shared by
both refund variants.  The vendor side is modelled to refund the requested
amount, or the charge's remaining amount when the amount is omitted;
refunding a nonexistent charge throws (500). -/
def refundCreateAndAudit (w : World) (now : Nat) (uid chId : String)
    (amount : Option Nat) : World × Resp :=
  match w.stripe.charges.find? (fun c => c.id = chId) with
  | none => (w, .err500 "No such charge")
  | some ch =>
    let amt := amount.getD (ch.amount - ch.amount_refunded.getD 0)
    let rid := "re_" ++ toString w.stripe.nextId
    let st := { w.stripe with
                refunds := w.stripe.refunds ++ [⟨rid, chId, amt⟩]
                nextId := w.stripe.nextId + 1 }
    let db := setMerge w.db uid (fun u =>
                { u with
                  lastRefundId := some rid
                  lastRefundAmount := some amt
                  lastRefundAt := some (.date now) })
    ({ db := db, stripe := st }, .refunded rid)

/-- The handler at `src/pages/api/subscription/refund.ts`: explicit charge
id if supplied, else the customer's most recent charge; no invoice
lookup. -/
def handler (w : World) (now : Nat) (method : String) (body : RefundBody) :
    World × Resp :=
  if method ≠ "POST" then (w, .methodNotAllowed)
  else
    match jsStrTruthy body.uid with
    | none => (w, .missingUid)
    | some uid =>
      let user? := (w.db.users.find? (fun p => p.1 = uid)).map (fun p => p.2)
      match jsStrTruthy (user?.bind (fun u => u.stripeCustomerId)) with
      | none => (w, .noCustomer)
      | some cust =>
        match jsStrTruthy body.chargeId with
        | some c => refundCreateAndAudit w now uid c body.amount
        | none =>
          match (w.stripe.charges.filter (fun ch => ch.customer = some cust)).head? with
          | none => (w, .noCharge)
          | some ch => refundCreateAndAudit w now uid ch.id body.amount

end RefundApi

namespace RefundApiB

/-- The second refund variant (same route in the repository): explicit
charge id, else the most recent paid invoice's charge through
`payment_intent.latest_charge`, else the customer's most recent charge. -/
def handler (w : World) (now : Nat) (method : String) (body : RefundBody) :
    World × RefundApi.Resp :=
  if method ≠ "POST" then (w, .methodNotAllowed)
  else
    match jsStrTruthy body.uid with
    | none => (w, .missingUid)
    | some uid =>
      let user? := (w.db.users.find? (fun p => p.1 = uid)).map (fun p => p.2)
      match jsStrTruthy (user?.bind (fun u => u.stripeCustomerId)) with
      | none => (w, .noCustomer)
      | some cust =>
        match jsStrTruthy body.chargeId with
        | some c => RefundApi.refundCreateAndAudit w now uid c body.amount
        | none =>
          let inv? := (w.stripe.invoices.filter
            (fun i => i.customer = cust ∧ i.status = "paid")).head?
          let step : Except String (Option String) :=
            match inv?.bind (fun i => jsStrTruthy i.payment_intent) with
            | none => .ok none
            | some piId =>
              match w.stripe.paymentIntents.find? (fun p => p.id = piId) with
              | none => .error "No such payment_intent"
              | some pi => .ok pi.latest_charge
          match step with
          | .error m => (w, .err500 m)
          | .ok viaInv =>
            let chosen :=
              match viaInv with
              | some c => some c
              | none =>
                ((w.stripe.charges.filter (fun ch => ch.customer = some cust)).head?).map
                  (fun ch => ch.id)
            match chosen with
            | none => (w, .noCharge)
            | some chId => RefundApi.refundCreateAndAudit w now uid chId body.amount

end RefundApiB

-- ---- The modelled state-mutating entry points, as one step type -----------

/-- One invocation of any modelled state-mutating entry point; used to
state system-wide invariants such as the monotonicity of `trialUsed`. -/
inductive Op
  | webhook (raw sig : List Nat)
  | stripeWebhook (raw sig : List Nat)
  | trialA (uid : String)
  | trialB (uid : String)
  | checkout (method accept : String) (q : Checkout.Query)
  | createCustomer (uid : String) (email : Option String)
  | refundA (method : String) (body : RefundBody)
  | refundB (method : String) (body : RefundBody)

/-- Apply one entry point to the world. -/
def applyOp (cfg : Config) (w : World) (now : Nat) : Op → World
  | .webhook raw sig => (Webhook.handler cfg w now raw sig).1
  | .stripeWebhook raw sig => (StripeWebhook.handler cfg w now raw sig).1
  | .trialA uid => { w with db := (Subscriptions.startFreeTrial w.db now uid).1 }
  | .trialB uid => { w with db := (SubscriptionLib.startFreeTrial w.db now uid).1 }
  | .checkout method accept q => (Checkout.handler cfg w now method accept q).1
  | .createCustomer uid email => (CreateCustomer.createStripeCustomerForUser w now uid email).1
  | .refundA method body => (RefundApi.handler w now method body).1
  | .refundB method body => (RefundApiB.handler w now method body).1

-- ---- Merge-write lemmas ----------------------------------------------------

theorem find_update (l : List (String × UserRecord)) (uid uid' : String)
    (f : UserRecord → UserRecord) :
    (l.map (fun p => if p.1 = uid' then (p.1, f p.2) else p)).find?
        (fun p => p.1 = uid)
      = (l.find? (fun p => p.1 = uid)).map
          (fun p => if p.1 = uid' then (p.1, f p.2) else p) := by
  induction l with
  | nil => rfl
  | cons hd tl ih =>
    obtain ⟨a, u⟩ := hd
    by_cases h1 : a = uid'
    · subst h1
      by_cases h2 : a = uid
      · subst h2
        simp [List.find?_cons]
      · simp [List.find?_cons, h2, ih]
    · by_cases h2 : a = uid
      · subst h2
        simp [List.find?_cons, h1]
      · simp [List.find?_cons, h1, h2, ih]

/-- Reading back the merged document gives the merge function applied to
the prior document (or to the empty record when absent). -/
theorem getUser_setMerge_self (db : DB) (uid : String)
    (f : UserRecord → UserRecord) :
    getUser (setMerge db uid f) uid = f (getUser db uid) := by
  unfold getUser setMerge
  by_cases h : (db.users.find? (fun p => p.1 = uid)).isSome
  · simp only [if_pos h, find_update]
    cases hfind : db.users.find? (fun p => p.1 = uid) with
    | none => rw [hfind] at h; simp at h
    | some p =>
      have hp : p.1 = uid := by simpa using List.find?_some hfind
      simp [hp]
  · simp only [if_neg h]
    cases hfind : db.users.find? (fun p => p.1 = uid) with
    | none =>
      simp [List.find?_append, hfind]
    | some p => rw [hfind] at h; simp at h

/-- A merge-write on one document leaves every other document unchanged. -/
theorem getUser_setMerge_other (db : DB) (uid uid' : String)
    (f : UserRecord → UserRecord) (hne : uid ≠ uid') :
    getUser (setMerge db uid' f) uid = getUser db uid := by
  unfold getUser setMerge
  by_cases h : (db.users.find? (fun p => p.1 = uid')).isSome
  · simp only [if_pos h, find_update]
    cases hfind : db.users.find? (fun p => p.1 = uid) with
    | none => simp
    | some p =>
      have hp : p.1 = uid := by simpa using List.find?_some hfind
      simp [hp, hne]
  · simp only [if_neg h]
    rw [List.find?_append]
    cases hfind : db.users.find? (fun p => p.1 = uid) with
    | none => simp [Ne.symm hne]
    | some p => simp

/-- Merge-writes never touch the processed-event markers. -/
theorem processedEvents_setMerge (db : DB) (uid : String)
    (f : UserRecord → UserRecord) :
    (setMerge db uid f).processedEvents = db.processedEvents := by
  unfold setMerge
  split <;> rfl

-- ---- Write-shape lemmas ----------------------------------------------------

/-- `db'` differs from `db` only by merge-writes that touch neither the
`trialUsed` flag nor the processed-event markers: the shape of every user
write the webhook dispatch performs. -/
def MergeEvolves (db db' : DB) : Prop :=
  db'.processedEvents = db.processedEvents ∧
    ∀ uid, (getUser db' uid).trialUsed = (getUser db uid).trialUsed

theorem mergeEvolves_refl (db : DB) : MergeEvolves db db :=
  ⟨rfl, fun _ => rfl⟩

theorem mergeEvolves_trans {a b c : DB} (h1 : MergeEvolves a b)
    (h2 : MergeEvolves b c) : MergeEvolves a c :=
  ⟨h2.1.trans h1.1, fun uid => (h2.2 uid).trans (h1.2 uid)⟩

theorem mergeEvolves_setMerge (db : DB) (uid : String)
    (f : UserRecord → UserRecord) (hf : ∀ u, (f u).trialUsed = u.trialUsed) :
    MergeEvolves db (setMerge db uid f) := by
  refine ⟨processedEvents_setMerge db uid f, fun uid' => ?_⟩
  by_cases h : uid' = uid
  · subst h
    rw [getUser_setMerge_self, hf]
  · rw [getUser_setMerge_other db uid' uid f h]

namespace Webhook

theorem mergeEvolves_setUserSubscription (db : DB) (now : Nat) (uid : String)
    (tier : String) (cpe : Option Nat) (status : String)
    (scid ssid : Option String) :
    MergeEvolves db (setUserSubscription db now uid tier cpe status scid ssid) :=
  mergeEvolves_setMerge _ _ _ (fun _ => rfl)

theorem mergeEvolves_setUserToFree (db : DB) (now : Nat) (uid reason : String) :
    MergeEvolves db (setUserToFree db now uid reason) :=
  mergeEvolves_setMerge _ _ _ (fun _ => rfl)

theorem checkoutCompletedE_evolves (cfg : Config) (w : World) (now : Nat)
    (s : CheckoutSession) (w' : World)
    (h : checkoutCompletedE cfg w now s = .ok w') :
    MergeEvolves w.db w'.db := by
  unfold checkoutCompletedE at h
  try dsimp only at h
  repeat' split at h
  all_goals cases h
  all_goals first
    | exact mergeEvolves_refl _
    | exact mergeEvolves_setUserSubscription ..
    | exact mergeEvolves_setMerge _ _ _ (fun _ => rfl)

theorem subUpsertE_evolves (cfg : Config) (w : World) (now : Nat)
    (sub : StripeSubscription) (w' : World)
    (h : subUpsertE cfg w now sub = .ok w') :
    MergeEvolves w.db w'.db := by
  unfold subUpsertE at h
  try dsimp only at h
  repeat' split at h
  all_goals cases h
  all_goals first
    | exact mergeEvolves_refl _
    | exact mergeEvolves_setUserSubscription ..
    | exact mergeEvolves_setMerge _ _ _ (fun _ => rfl)

theorem subDeletedE_evolves (w : World) (now : Nat)
    (sub : StripeSubscription) (w' : World)
    (h : subDeletedE w now sub = .ok w') :
    MergeEvolves w.db w'.db := by
  unfold subDeletedE at h
  try dsimp only at h
  repeat' split at h
  all_goals cases h
  all_goals first
    | exact mergeEvolves_refl _
    | exact mergeEvolves_setUserToFree ..

theorem invoicePaidE_evolves (cfg : Config) (w : World) (now : Nat)
    (inv : StripeInvoice) (w' : World)
    (h : invoicePaidE cfg w now inv = .ok w') :
    MergeEvolves w.db w'.db := by
  unfold invoicePaidE at h
  try dsimp only at h
  repeat' split at h
  all_goals cases h
  all_goals first
    | exact mergeEvolves_refl _
    | exact mergeEvolves_setUserSubscription ..

theorem invoiceFailedE_evolves (w : World) (now : Nat)
    (inv : StripeInvoice) (w' : World)
    (h : invoiceFailedE w now inv = .ok w') :
    MergeEvolves w.db w'.db := by
  unfold invoiceFailedE at h
  try dsimp only at h
  repeat' split at h
  all_goals cases h
  all_goals first
    | exact mergeEvolves_refl _
    | exact mergeEvolves_setMerge _ _ _ (fun _ => rfl)

theorem chargeFlow_evolves (w : World) (now : Nat) (ch : StripeCharge)
    (w' : World) (h : chargeFlow w now ch = .ok w') :
    MergeEvolves w.db w'.db := by
  unfold chargeFlow at h
  try dsimp only at h
  repeat' split at h
  all_goals cases h
  all_goals first
    | exact mergeEvolves_refl _
    | exact mergeEvolves_setMerge _ _ _ (fun _ => rfl)

theorem dispatchE_evolves (cfg : Config) (w : World) (now : Nat) (e : Event)
    (w' : World) (h : dispatchE cfg w now e = .ok w') :
    MergeEvolves w.db w'.db := by
  unfold dispatchE at h
  repeat' split at h
  all_goals first
    | exact checkoutCompletedE_evolves _ _ _ _ _ h
    | exact subUpsertE_evolves _ _ _ _ _ h
    | exact subDeletedE_evolves _ _ _ _ h
    | exact invoicePaidE_evolves _ _ _ _ _ h
    | exact invoiceFailedE_evolves _ _ _ _ h
    | exact chargeFlow_evolves _ _ _ _ h
    | (cases h; exact mergeEvolves_refl _)
    | (cases h)

end Webhook

-- ---- trialUsed monotonicity and marker lemmas ------------------------------

/-- Monotonicity of the `trialUsed` flag between two database states: every
user observed with `trialUsed = true` before is still observed with
`trialUsed = true` after. -/
def TrialMono (db db' : DB) : Prop :=
  ∀ uid, (getUser db uid).trialUsed = some true →
    (getUser db' uid).trialUsed = some true

theorem MergeEvolves.trialMono {db db' : DB} (h : MergeEvolves db db') :
    TrialMono db db' :=
  fun uid hu => (h.2 uid).trans hu

theorem trialMono_refl (db : DB) : TrialMono db db :=
  fun _ hu => hu

theorem getUser_congr_users {db1 db2 : DB} (h : db1.users = db2.users)
    (uid : String) : getUser db1 uid = getUser db2 uid := by
  unfold getUser
  rw [h]

theorem alreadyProcessed_users (db : DB) (now : Nat) (id : String) :
    ((Webhook.alreadyProcessed db now id).2).users = db.users := by
  unfold Webhook.alreadyProcessed
  split <;> rfl

namespace StripeWebhook

theorem checkoutCompleted_evolves (w : World) (now : Nat)
    (s : CheckoutSession) :
    MergeEvolves w.db ((checkoutCompleted w now s).1).db := by
  unfold checkoutCompleted
  try dsimp only
  repeat' split
  all_goals first
    | exact mergeEvolves_refl _
    | exact mergeEvolves_setMerge _ _ _ (fun _ => rfl)
    | (refine mergeEvolves_trans ?_ (mergeEvolves_setMerge _ _ _ (fun _ => rfl))
       exact mergeEvolves_setMerge _ _ _ (fun _ => rfl))

theorem subUpsert_evolves (w : World) (now : Nat) (sub : StripeSubscription) :
    MergeEvolves w.db ((subUpsert w now sub).1).db := by
  unfold subUpsert
  try dsimp only
  repeat' split
  all_goals first
    | exact mergeEvolves_refl _
    | exact mergeEvolves_setMerge _ _ _ (fun _ => rfl)

theorem subDeleted_evolves (w : World) (now : Nat) (sub : StripeSubscription) :
    MergeEvolves w.db ((subDeleted w now sub).1).db := by
  unfold subDeleted
  try dsimp only
  repeat' split
  all_goals first
    | exact mergeEvolves_refl _
    | exact mergeEvolves_setMerge _ _ _ (fun _ => rfl)

theorem handlerVerified_evolves (w : World) (now : Nat) (e : Event) :
    MergeEvolves w.db ((handlerVerified w now e).1).db := by
  unfold handlerVerified
  repeat' split
  all_goals first
    | exact checkoutCompleted_evolves ..
    | exact subUpsert_evolves ..
    | exact subDeleted_evolves ..
    | exact mergeEvolves_refl _

theorem stripeWebhookHandler_evolves (cfg : Config) (w : World) (now : Nat)
    (raw sig : List Nat) :
    MergeEvolves w.db ((handler cfg w now raw sig).1).db := by
  unfold handler
  split
  · exact mergeEvolves_refl _
  · exact handlerVerified_evolves ..

end StripeWebhook

namespace Webhook

theorem handler_trialMono (cfg : Config) (w : World) (now : Nat)
    (raw sig : List Nat) :
    TrialMono w.db ((handler cfg w now raw sig).1).db := by
  unfold handler
  split
  · exact trialMono_refl _
  · rename_i ev hevd
    split
    · exact trialMono_refl _
    · rename_i db' heq
      have husers : db'.users = w.db.users := by
        have h2 := congrArg Prod.snd heq
        dsimp only at h2
        rw [← h2]
        exact alreadyProcessed_users ..
      try dsimp only
      split
      · rename_i w'' hdisp
        intro uid hu
        have hm := (dispatchE_evolves cfg { w with db := db' } now ev w'' hdisp).trialMono
        exact hm uid (by rw [getUser_congr_users husers uid]; exact hu)
      · intro uid hu
        dsimp only
        rw [getUser_congr_users husers uid]
        exact hu

theorem handler_duplicate (cfg : Config) (w : World) (now : Nat)
    (raw sig : List Nat) (e : Event)
    (hev : constructEvent cfg.webhookSecret raw sig = some e)
    (hdup : ((w.db.processedEvents.find? (fun p => p.1 = e.id)).isSome)) :
    handler cfg w now raw sig = (w, .ok true) := by
  unfold handler
  simp only [hev]
  have hap : alreadyProcessed w.db now e.id = (true, w.db) := by
    unfold alreadyProcessed
    rw [if_pos hdup]
  simp only [hap]

theorem handler_marker (cfg : Config) (w : World) (now : Nat)
    (raw sig : List Nat) (e : Event)
    (hev : constructEvent cfg.webhookSecret raw sig = some e) :
    ((((handler cfg w now raw sig).1).db.processedEvents.find?
        (fun p => p.1 = e.id)).isSome) := by
  unfold handler
  simp only [hev]
  by_cases hdup : ((w.db.processedEvents.find? (fun p => p.1 = e.id)).isSome)
  · have hap : alreadyProcessed w.db now e.id = (true, w.db) := by
      unfold alreadyProcessed
      rw [if_pos hdup]
    simp only [hap]
    exact hdup
  · have hap : alreadyProcessed w.db now e.id =
        (false, { w.db with processedEvents := w.db.processedEvents ++ [(e.id, now)] }) := by
      unfold alreadyProcessed
      rw [if_neg hdup]
    simp only [hap]
    try dsimp only
    have hfind : ((w.db.processedEvents ++ [(e.id, now)]).find?
        (fun p => p.1 = e.id)).isSome := by
      rw [List.find?_append]
      cases hf : w.db.processedEvents.find? (fun p => p.1 = e.id) with
      | some p => simp
      | none => simp [List.find?_cons]
    split
    · rename_i w'' hdisp
      have hpe := (dispatchE_evolves cfg _ now e w'' hdisp).1
      rw [hpe]
      exact hfind
    · exact hfind

end Webhook

namespace Checkout

theorem checkoutHandler_evolves (cfg : Config) (w : World) (now : Nat)
    (method accept : String) (q : Query) :
    MergeEvolves w.db ((handler cfg w now method accept q).1).db := by
  unfold handler
  try dsimp only
  repeat' split
  all_goals first
    | exact mergeEvolves_refl _
    | exact mergeEvolves_setMerge _ _ _ (fun _ => rfl)

end Checkout

namespace CreateCustomer

theorem create_evolves (w : World) (now : Nat) (uid : String)
    (email : Option String) :
    MergeEvolves w.db ((createStripeCustomerForUser w now uid email).1).db := by
  unfold createStripeCustomerForUser
  try dsimp only
  repeat' split
  all_goals first
    | exact mergeEvolves_refl _
    | exact mergeEvolves_setMerge _ _ _ (fun _ => rfl)

end CreateCustomer

namespace RefundApi

theorem refundCreateAndAudit_evolves (w : World) (now : Nat)
    (uid chId : String) (amount : Option Nat) :
    MergeEvolves w.db ((refundCreateAndAudit w now uid chId amount).1).db := by
  unfold refundCreateAndAudit
  try dsimp only
  repeat' split
  all_goals first
    | exact mergeEvolves_refl _
    | exact mergeEvolves_setMerge _ _ _ (fun _ => rfl)

theorem refundHandlerA_evolves (w : World) (now : Nat) (method : String)
    (body : RefundBody) :
    MergeEvolves w.db ((handler w now method body).1).db := by
  unfold handler
  try dsimp only
  repeat' split
  all_goals first
    | exact mergeEvolves_refl _
    | exact refundCreateAndAudit_evolves ..

end RefundApi

namespace RefundApiB

theorem refundHandlerB_evolves (w : World) (now : Nat) (method : String)
    (body : RefundBody) :
    MergeEvolves w.db ((handler w now method body).1).db := by
  unfold handler
  try dsimp only
  repeat' split
  all_goals first
    | exact mergeEvolves_refl _
    | exact RefundApi.refundCreateAndAudit_evolves ..

end RefundApiB

theorem trialMono_startFreeTrialA (db : DB) (now : Nat) (uid : String) :
    TrialMono db ((Subscriptions.startFreeTrial db now uid).1) := by
  unfold Subscriptions.startFreeTrial
  try dsimp only
  split
  · exact trialMono_refl _
  · intro uid' hu
    by_cases h : uid' = uid
    · subst h
      rw [getUser_setMerge_self]
    · rw [getUser_setMerge_other _ _ _ _ h]
      exact hu

theorem trialMono_startFreeTrialB (db : DB) (now : Nat) (uid : String) :
    TrialMono db ((SubscriptionLib.startFreeTrial db now uid).1) := by
  unfold SubscriptionLib.startFreeTrial
  try dsimp only
  split
  · exact trialMono_refl _
  · intro uid' hu
    by_cases h : uid' = uid
    · subst h
      rw [getUser_setMerge_self]
    · rw [getUser_setMerge_other _ _ _ _ h]
      exact hu

/-- Every modelled entry point preserves an observed `trialUsed = true`. -/
theorem trialMono_applyOp (cfg : Config) (w : World) (now : Nat) (op : Op) :
    TrialMono w.db ((applyOp cfg w now op).db) := by
  cases op with
  | webhook raw sig => exact Webhook.handler_trialMono cfg w now raw sig
  | stripeWebhook raw sig =>
    exact (StripeWebhook.stripeWebhookHandler_evolves cfg w now raw sig).trialMono
  | trialA uid => exact trialMono_startFreeTrialA w.db now uid
  | trialB uid => exact trialMono_startFreeTrialB w.db now uid
  | checkout method accept q =>
    exact (Checkout.checkoutHandler_evolves cfg w now method accept q).trialMono
  | createCustomer uid email =>
    exact (CreateCustomer.create_evolves w now uid email).trialMono
  | refundA method body =>
    exact (RefundApi.refundHandlerA_evolves w now method body).trialMono
  | refundB method body =>
    exact (RefundApiB.refundHandlerB_evolves w now method body).trialMono

-- ---- Dispatch reduction helpers -------------------------------------------

theorem jsStrTruthy_ne_empty {o : Option String} {s : String}
    (h : jsStrTruthy o = some s) : s ≠ "" := by
  cases o with
  | none => simp [jsStrTruthy] at h
  | some t =>
    by_cases ht : t = ""
    · subst ht; simp [jsStrTruthy] at h
    · unfold jsStrTruthy at h
      split at h
      · cases h
      · cases h; assumption
      · cases h

theorem hmacModel_inj (secret : List Nat) {a b : List Nat}
    (h : hmacModel secret a = hmacModel secret b) : a = b := by
  unfold hmacModel at h
  injection h with h1 h2
  exact List.append_cancel_left h2

namespace Webhook

theorem dispatchE_deleted (cfg : Config) (w : World) (now : Nat) (e : Event)
    (sub : StripeSubscription) (ht : e.type = "customer.subscription.deleted")
    (hobj : e.obj = .sub sub) :
    dispatchE cfg w now e = subDeletedE w now sub := by
  cases e with
  | mk id ty obj =>
    dsimp only at ht hobj
    subst ht
    subst hobj
    simp [dispatchE]

theorem dispatchE_invoiceFailed (cfg : Config) (w : World) (now : Nat)
    (e : Event) (inv : StripeInvoice) (ht : e.type = "invoice.payment_failed")
    (hobj : e.obj = .invoice inv) :
    dispatchE cfg w now e = invoiceFailedE w now inv := by
  cases e with
  | mk id ty obj =>
    dsimp only at ht hobj
    subst ht
    subst hobj
    simp [dispatchE]

theorem dispatchE_chargeRefunded (cfg : Config) (w : World) (now : Nat)
    (e : Event) (ch : StripeCharge) (ht : e.type = "charge.refunded")
    (hobj : e.obj = .charge ch) :
    dispatchE cfg w now e = chargeFlow w now ch := by
  cases e with
  | mk id ty obj =>
    dsimp only at ht hobj
    subst ht
    subst hobj
    simp [dispatchE]

end Webhook

-- ---- Concrete fixtures for witnesses and counterexamples -------------------

/-- A sample subscription-deleted event resolving to user `u1`. -/
def evDeleted : Event :=
  { id := "evt1"
    type := "customer.subscription.deleted"
    obj := .sub { id := "sub1", customer := "cus1", metadata_uid := some "u1" } }

/-- A sample configuration with a two-byte webhook secret. -/
def cfgW : Config := { webhookSecret := [7, 7] }

/-- A sample world: user `u1` is linked to Stripe customer `cus1` and has a
stored subscription end date. -/
def wW : World :=
  { db := { users := [("u1",
      { subscriptionEndDate := some (DateVal.date 999)
        subscriptionType := some "DEMANDX"
        stripeCustomerId := some "cus1" })] }
    stripe := { customers := [{ id := "cus1", metadata_uid := some "u1" }] } }

/-- The raw body of `evDeleted` and its valid signature. -/
def rawW : List Nat := encEvent evDeleted

def sigW : List Nat := hmacModel [7, 7] rawW

-- ---- C1 --------------------------------------------------------------------

/-- C1: webhook deliveries are deduplicated by event id.  If the
processed-event marker for the event's id already exists, the handler
answers 200 (duplicate) and changes nothing; consequently, delivering the
same signed event a second time changes nothing beyond the first
delivery. -/
theorem webhook_duplicate_delivery_noop (cfg : Config) (w : World)
    (now now' : Nat) (raw sig : List Nat) (e : Event)
    (hev : constructEvent cfg.webhookSecret raw sig = some e) :
    (((w.db.processedEvents.find? (fun p => p.1 = e.id)).isSome) →
      Webhook.handler cfg w now raw sig = (w, .ok true)) ∧
    Webhook.handler cfg ((Webhook.handler cfg w now raw sig).1) now' raw sig
      = ((Webhook.handler cfg w now raw sig).1, .ok true) := by
  constructor
  · intro hdup
    exact Webhook.handler_duplicate cfg w now raw sig e hev hdup
  · exact Webhook.handler_duplicate cfg _ now' raw sig e hev
      (Webhook.handler_marker cfg w now raw sig e hev)

/-- C1 witness: the duplicate-delivery property at a concrete signed
subscription-deleted event. -/
theorem webhook_duplicate_delivery_noop_witness :
    constructEvent cfgW.webhookSecret rawW sigW = some evDeleted ∧
    ((((wW.db.processedEvents.find? (fun p => p.1 = evDeleted.id)).isSome) →
       Webhook.handler cfgW wW 5 rawW sigW = (wW, .ok true)) ∧
     Webhook.handler cfgW ((Webhook.handler cfgW wW 5 rawW sigW).1) 6 rawW sigW
       = ((Webhook.handler cfgW wW 5 rawW sigW).1, .ok true)) :=
  ⟨by decide, webhook_duplicate_delivery_noop cfgW wW 5 6 rawW sigW evDeleted (by decide)⟩

-- ---- C2 --------------------------------------------------------------------

/-- C2: a request whose signature does not verify against the HMAC over the
raw body is rejected with a 400 by both webhook variants, with no
processed-event marker written and no state change; in particular a body
differing from the one the signature was computed over (any mutated byte)
is rejected. -/
theorem webhook_bad_signature_rejected (cfg : Config) (w w2 : World)
    (now now2 : Nat) (raw raw' sig : List Nat)
    (hsig : sig = hmacModel cfg.webhookSecret raw)
    (hne : raw' ≠ raw) :
    Webhook.handler cfg w now raw' sig = (w, .sigErr) ∧
    Webhook.Resp.statusCode .sigErr = 400 ∧
    StripeWebhook.handler cfg w2 now2 raw' sig = (w2, .sigErr) ∧
    StripeWebhook.Resp.statusCode .sigErr = 400 := by
  have hce : constructEvent cfg.webhookSecret raw' sig = none := by
    unfold constructEvent
    rw [if_neg]
    intro hEq
    exact hne (hmacModel_inj cfg.webhookSecret (hsig.symm.trans hEq)).symm
  refine ⟨?_, rfl, ?_, rfl⟩
  · unfold Webhook.handler
    simp only [hce]
  · unfold StripeWebhook.handler
    simp only [hce]

/-- C2 witness: mutating the raw body while keeping the original valid
signature is rejected by both handlers. -/
theorem webhook_bad_signature_rejected_witness :
    sigW = hmacModel cfgW.webhookSecret rawW ∧ (0 :: rawW) ≠ rawW ∧
    (Webhook.handler cfgW wW 5 (0 :: rawW) sigW = (wW, .sigErr) ∧
     Webhook.Resp.statusCode .sigErr = 400 ∧
     StripeWebhook.handler cfgW wW 5 (0 :: rawW) sigW = (wW, .sigErr) ∧
     StripeWebhook.Resp.statusCode .sigErr = 400) :=
  ⟨by decide, by decide,
   webhook_bad_signature_rejected cfgW wW wW 5 5 rawW (0 :: rawW) sigW (by decide) (by decide)⟩

-- ---- C3 --------------------------------------------------------------------

/-- C3 counterexample: a subscription-deleted event processed by the
`pages/api/stripe-webhook.ts` variant for the known user `u1` leaves the
stored `subscriptionEndDate` untouched (here `some 999`, not null) and
records no downgrade reason, contradicting the claim as stated over every
subscription-deleted processing path. -/
theorem stripeWebhook_deleted_keeps_endDate :
    (getUser wW.db "u1").subscriptionEndDate = some (DateVal.date 999) ∧
    (StripeWebhook.handler cfgW wW 5 rawW sigW).2 = .received ∧
    (getUser ((StripeWebhook.handler cfgW wW 5 rawW sigW).1).db "u1").subscriptionType
      = some "DIGITAL+XIIBIITKEY" ∧
    (getUser ((StripeWebhook.handler cfgW wW 5 rawW sigW).1).db "u1").subscriptionEndDate
      = some (DateVal.date 999) ∧
    (getUser ((StripeWebhook.handler cfgW wW 5 rawW sigW).1).db "u1").lastDowngradeReason
      = none := by
  decide

/-- C3 (amended): in the primary webhook handler (`pages/api/webhook.ts`),
a subscription-deleted event that resolves to a known user downgrades the
user to the free tier label `HIPSESSION` with status `canceled`, sets
`subscriptionEndDate` to null and records the downgrade reason, regardless
of the prior tier. -/
theorem webhook_subscription_deleted_downgrades (cfg : Config) (w : World)
    (now : Nat) (e : Event) (sub : StripeSubscription) (uid : String)
    (ht : e.type = "customer.subscription.deleted")
    (hobj : e.obj = .sub sub)
    (huser : Webhook.getUserRefForCustomer w sub.customer = .ok (some uid)) :
    ∃ w', Webhook.dispatchE cfg w now e = .ok w' ∧
      (getUser w'.db uid).subscriptionType = some "HIPSESSION" ∧
      (getUser w'.db uid).subscriptionStatus = some "canceled" ∧
      (getUser w'.db uid).subscriptionEndDate = none ∧
      (getUser w'.db uid).lastDowngradeReason = some "subscription.deleted" := by
  refine ⟨{ w with db := Webhook.setUserToFree w.db now uid "subscription.deleted" },
    ?_, ?_, ?_, ?_, ?_⟩
  · rw [Webhook.dispatchE_deleted cfg w now e sub ht hobj]
    unfold Webhook.subDeletedE
    rw [huser]
  all_goals
    unfold Webhook.setUserToFree
    rw [getUser_setMerge_self]

/-- C3 witness: the amended downgrade property at the concrete
subscription-deleted event for user `u1`. -/
theorem webhook_subscription_deleted_downgrades_witness :
    evDeleted.type = "customer.subscription.deleted" ∧
    (∃ w', Webhook.dispatchE cfgW wW 5 evDeleted = .ok w' ∧
      (getUser w'.db "u1").subscriptionType = some "HIPSESSION" ∧
      (getUser w'.db "u1").subscriptionStatus = some "canceled" ∧
      (getUser w'.db "u1").subscriptionEndDate = none ∧
      (getUser w'.db "u1").lastDowngradeReason = some "subscription.deleted") :=
  ⟨by decide,
   webhook_subscription_deleted_downgrades cfgW wW 5 evDeleted
     { id := "sub1", customer := "cus1", metadata_uid := some "u1" } "u1"
     (by decide) (by decide) (by rfl)⟩

-- ---- C4 --------------------------------------------------------------------

/-- A refund event whose refunded amount equals the (zero) charge amount. -/
def evRefund0 : Event :=
  { id := "evt4"
    type := "charge.refunded"
    obj := .charge { id := "ch0", customer := some "cus1", amount := 0, amount_refunded := some 0 } }

/-- A world for the refund claims: user `u1` holds customer `cus1` and an
active subscription status. -/
def wC4 : World :=
  { db := { users := [("u1",
      { stripeCustomerId := some "cus1", subscriptionStatus := some "active" })] }
    stripe := { customers := [{ id := "cus1", metadata_uid := some "u1" }] } }

def rawC4 : List Nat := encEvent evRefund0

def sigC4 : List Nat := hmacModel [7, 7] rawC4

/-- C4 counterexample: for a charge with `amount = 0` and
`amount_refunded = 0`, the refunded amount equals the full charge amount,
yet the handler takes the partial-refund branch (JavaScript truthiness of
`0`), leaving `subscriptionStatus` unchanged instead of `"refunded"`. -/
theorem webhook_zero_refund_counterexample :
    (StripeCharge.mk "ch0" (some "cus1") 0 (some 0)).amount_refunded
      = some (StripeCharge.mk "ch0" (some "cus1") 0 (some 0)).amount ∧
    (Webhook.handler cfgW wC4 5 rawC4 sigC4).2 = .ok false ∧
    (getUser ((Webhook.handler cfgW wC4 5 rawC4 sigC4).1).db "u1").subscriptionStatus
      = some "active" ∧
    (getUser ((Webhook.handler cfgW wC4 5 rawC4 sigC4).1).db "u1").lastRefundAmount
      = some 0 := by
  decide

/-- C4 (amended): for a refund-related event that resolves to a known user,
a refunded amount that is nonzero and equal to the charge amount marks the
status `"refunded"` with `lastRefundAmount` equal to the charge amount; a
refunded amount different from the charge amount leaves the status
unchanged and records the partial amount; a zero or absent refunded amount
also leaves the status unchanged and records `0`. -/
theorem webhook_refund_event_audit (cfg : Config) (w : World) (now : Nat)
    (e : Event) (ch : StripeCharge) (cid uid : String)
    (ht : e.type = "charge.refunded") (hobj : e.obj = .charge ch)
    (hcid : jsStrTruthy ch.customer = some cid)
    (huser : Webhook.getUserRefForCustomer w cid = .ok (some uid)) :
    ∃ w', Webhook.dispatchE cfg w now e = .ok w' ∧
      (∀ n, ch.amount_refunded = some n → n ≠ 0 → n = ch.amount →
         (getUser w'.db uid).subscriptionStatus = some "refunded" ∧
         (getUser w'.db uid).lastRefundAmount = some ch.amount) ∧
      (∀ n, ch.amount_refunded = some n → n ≠ ch.amount →
         (getUser w'.db uid).subscriptionStatus = (getUser w.db uid).subscriptionStatus ∧
         (getUser w'.db uid).lastRefundAmount = some n) ∧
      ((ch.amount_refunded = some 0 ∨ ch.amount_refunded = none) →
         (getUser w'.db uid).subscriptionStatus = (getUser w.db uid).subscriptionStatus ∧
         (getUser w'.db uid).lastRefundAmount = some (ch.amount_refunded.getD 0)) := by
  rw [Webhook.dispatchE_chargeRefunded cfg w now e ch ht hobj]
  unfold Webhook.chargeFlow
  simp only [hcid]
  simp only [huser]
  obtain ⟨chid, chcust, cham, char⟩ := ch
  dsimp only at hcid ⊢
  cases char with
  | none =>
    refine ⟨_, rfl, ?_, ?_, ?_⟩
    · intro n hn; cases hn
    · intro n hn; cases hn
    · intro _
      exact ⟨by simp [getUser_setMerge_self], by simp [getUser_setMerge_self]⟩
  | some n =>
    by_cases hn0 : n = 0
    · subst hn0
      rw [if_neg (by simp)]
      refine ⟨_, rfl, ?_, ?_, ?_⟩
      · intro m hm h0 _
        cases hm
        exact absurd rfl h0
      · intro m hm _
        cases hm
        exact ⟨by simp [getUser_setMerge_self], by simp [getUser_setMerge_self]⟩
      · intro _
        exact ⟨by simp [getUser_setMerge_self], by simp [getUser_setMerge_self]⟩
    · by_cases hna : n = cham
      · subst hna
        rw [if_pos (by simp [hn0])]
        refine ⟨_, rfl, ?_, ?_, ?_⟩
        · intro m hm _ _
          cases hm
          exact ⟨by simp [getUser_setMerge_self], by simp [getUser_setMerge_self]⟩
        · intro m hm hne
          cases hm
          exact absurd rfl hne
        · intro hd
          rcases hd with hd | hd
          · cases hd
            exact absurd rfl hn0
          · cases hd
      · rw [if_neg (by simp [hna])]
        refine ⟨_, rfl, ?_, ?_, ?_⟩
        · intro m hm _ hmm
          cases hm
          exact absurd hmm hna
        · intro m hm _
          cases hm
          exact ⟨by simp [getUser_setMerge_self], by simp [getUser_setMerge_self]⟩
        · intro hd
          rcases hd with hd | hd
          · cases hd
            exact ⟨by simp [getUser_setMerge_self], by simp [getUser_setMerge_self]⟩
          · cases hd

/-- A fully-refunded nonzero charge for customer `cus1`. -/
def chFull : StripeCharge :=
  { id := "ch1", customer := some "cus1", amount := 500, amount_refunded := some 500 }

/-- The corresponding `charge.refunded` event. -/
def evRefundFull : Event := { id := "evt5", type := "charge.refunded", obj := .charge chFull }

/-- C4 witness: the amended refund property at a concrete full refund of a
500-unit charge for user `u1`. -/
theorem webhook_refund_event_audit_witness :
    evRefundFull.type = "charge.refunded" ∧ jsStrTruthy chFull.customer = some "cus1" ∧
    (∃ w', Webhook.dispatchE cfgW wC4 5 evRefundFull = .ok w' ∧
      (∀ n, chFull.amount_refunded = some n → n ≠ 0 → n = chFull.amount →
         (getUser w'.db "u1").subscriptionStatus = some "refunded" ∧
         (getUser w'.db "u1").lastRefundAmount = some chFull.amount) ∧
      (∀ n, chFull.amount_refunded = some n → n ≠ chFull.amount →
         (getUser w'.db "u1").subscriptionStatus = (getUser wC4.db "u1").subscriptionStatus ∧
         (getUser w'.db "u1").lastRefundAmount = some n) ∧
      ((chFull.amount_refunded = some 0 ∨ chFull.amount_refunded = none) →
         (getUser w'.db "u1").subscriptionStatus = (getUser wC4.db "u1").subscriptionStatus ∧
         (getUser w'.db "u1").lastRefundAmount = some (chFull.amount_refunded.getD 0))) :=
  ⟨by decide, by decide,
   webhook_refund_event_audit cfgW wC4 5 evRefundFull chFull "cus1" "u1"
     (by decide) (by decide) (by decide) (by rfl)⟩

-- ---- C5 --------------------------------------------------------------------

/-- C5: an invoice-payment-failed event that resolves to a known user sets
`subscriptionStatus` to `"past_due"` and leaves both `subscriptionType` and
`subscriptionEndDate` exactly as they were before the event. -/
theorem webhook_payment_failed_past_due (cfg : Config) (w : World) (now : Nat)
    (e : Event) (inv : StripeInvoice) (sid : String)
    (sub : StripeSubscription) (uid : String)
    (ht : e.type = "invoice.payment_failed") (hobj : e.obj = .invoice inv)
    (hsid : jsStrTruthy inv.subscription = some sid)
    (hsub : w.stripe.subscriptions.find? (fun s => s.id = sid) = some sub)
    (huser : Webhook.getUserRefForCustomer w sub.customer = .ok (some uid)) :
    ∃ w', Webhook.dispatchE cfg w now e = .ok w' ∧
      (getUser w'.db uid).subscriptionStatus = some "past_due" ∧
      (getUser w'.db uid).subscriptionType = (getUser w.db uid).subscriptionType ∧
      (getUser w'.db uid).subscriptionEndDate = (getUser w.db uid).subscriptionEndDate := by
  rw [Webhook.dispatchE_invoiceFailed cfg w now e inv ht hobj]
  unfold Webhook.invoiceFailedE
  simp only [hsid]
  simp only [hsub]
  simp only [huser]
  refine ⟨_, rfl, ?_, ?_, ?_⟩
  all_goals simp [getUser_setMerge_self]

/-- The invoice and subscription backing the C5 witness. -/
def invC5 : StripeInvoice :=
  { id := "in5", customer := "cus1", subscription := some "sub1", status := "open" }

def subC5 : StripeSubscription :=
  { id := "sub1", customer := "cus1", priceId := some "pA", current_period_end := some 777 }

def evInvFailed : Event := { id := "evt6", type := "invoice.payment_failed", obj := .invoice invC5 }

/-- A world for C5: user `u1` has a DEMANDX subscription with a stored end
date, and the Stripe side holds the failing invoice's subscription. -/
def wC5 : World :=
  { db := { users := [("u1",
      { stripeCustomerId := some "cus1"
        subscriptionType := some "DEMANDX"
        subscriptionStatus := some "active"
        subscriptionEndDate := some (DateVal.date 777000) })] }
    stripe := { customers := [{ id := "cus1", metadata_uid := some "u1" }]
                subscriptions := [subC5] } }

/-- C5 witness: the past-due frame property at the concrete failing
invoice. -/
theorem webhook_payment_failed_past_due_witness :
    evInvFailed.type = "invoice.payment_failed" ∧
    (∃ w', Webhook.dispatchE cfgW wC5 5 evInvFailed = .ok w' ∧
      (getUser w'.db "u1").subscriptionStatus = some "past_due" ∧
      (getUser w'.db "u1").subscriptionType = (getUser wC5.db "u1").subscriptionType ∧
      (getUser w'.db "u1").subscriptionEndDate = (getUser wC5.db "u1").subscriptionEndDate) :=
  ⟨by decide,
   webhook_payment_failed_past_due cfgW wC5 5 evInvFailed invC5 "sub1" subC5 "u1"
     (by decide) (by decide) (by decide) (by rfl) (by rfl)⟩

-- ---- C6 --------------------------------------------------------------------

/-- C6: `trialUsed` is monotonic.  (1) Every modelled state-mutating entry
point preserves an observed `trialUsed = true` for every user; (2) starting
a free trial for a user whose record already has `trialUsed = true` fails
with the "already used" error and leaves the database unchanged (both
library variants); (3) a successful trial start sets `trialUsed = true`
(both variants). -/
theorem trialUsed_monotonic :
    (∀ cfg w now op uid, (getUser w.db uid).trialUsed = some true →
       (getUser ((applyOp cfg w now op).db) uid).trialUsed = some true) ∧
    (∀ db now uid, (getUser db uid).trialUsed = some true →
       Subscriptions.startFreeTrial db now uid = (db, .error "Free trial already used.") ∧
       SubscriptionLib.startFreeTrial db now uid = (db, .error "Free trial already used.")) ∧
    (∀ db now uid, (getUser db uid).trialUsed ≠ some true →
       (getUser ((Subscriptions.startFreeTrial db now uid).1) uid).trialUsed = some true ∧
       (getUser ((SubscriptionLib.startFreeTrial db now uid).1) uid).trialUsed = some true) := by
  refine ⟨fun cfg w now op uid h => trialMono_applyOp cfg w now op uid h, ?_, ?_⟩
  · intro db now uid h
    constructor
    · unfold Subscriptions.startFreeTrial
      rw [if_pos h]
    · unfold SubscriptionLib.startFreeTrial
      rw [if_pos h]
  · intro db now uid h
    constructor
    · unfold Subscriptions.startFreeTrial
      rw [if_neg h]
      simp [getUser_setMerge_self]
    · unfold SubscriptionLib.startFreeTrial
      rw [if_neg h]
      simp [getUser_setMerge_self]

/-- A database in which user `u1` has already consumed the free trial and
user `u2` has not. -/
def dbTrial : DB :=
  { users := [("u1", { trialUsed := some true }), ("u2", {})] }

/-- C6 witness: the monotonicity statement applied at a concrete database:
a webhook delivery preserves `u1`'s consumed flag, a second trial start for
`u1` fails and changes nothing, and a fresh trial start for `u2` sets the
flag. -/
theorem trialUsed_monotonic_witness :
    (getUser dbTrial "u1").trialUsed = some true ∧
    (getUser ((applyOp cfgW { db := dbTrial } 5 (.webhook rawW sigW)).db) "u1").trialUsed
      = some true ∧
    Subscriptions.startFreeTrial dbTrial 5 "u1" = (dbTrial, .error "Free trial already used.") ∧
    (getUser ((Subscriptions.startFreeTrial dbTrial 5 "u2").1) "u2").trialUsed = some true :=
  ⟨by decide,
   trialUsed_monotonic.1 cfgW { db := dbTrial } 5 (.webhook rawW sigW) "u1" (by decide),
   (trialUsed_monotonic.2.1 dbTrial 5 "u1" (by decide)).1,
   (trialUsed_monotonic.2.2 dbTrial 5 "u2" (by decide)).1⟩

-- ---- C7 --------------------------------------------------------------------

/-- A world where the customer's most recent charge (`chA`) differs from
the charge behind the most recent paid invoice (`chB`). -/
def wC7 : World :=
  { db := { users := [("u1", { stripeCustomerId := some "cus1" })] }
    stripe := { charges := [{ id := "chA", customer := some "cus1", amount := 500 },
                            { id := "chB", customer := some "cus1", amount := 300 }]
                invoices := [{ id := "in1", customer := "cus1", payment_intent := some "pi1"
                               status := "paid" }]
                paymentIntents := [{ id := "pi1", latest_charge := some "chB" }] } }

/-- C7 counterexample: with no explicit charge id, the most recent paid
invoice resolves to charge `chB`, but the handler at
`src/pages/api/subscription/refund.ts` refunds the customer's most recent
charge `chA` instead — it never consults the invoice, contradicting the
claimed preference order.  (The second variant of the same route does
follow the order and refunds `chB`.) -/
theorem refund_resolution_counterexample :
    ((wC7.stripe.invoices.filter (fun i => i.customer = "cus1" ∧ i.status = "paid")).head?.bind
        (fun i => i.payment_intent)) = some "pi1" ∧
    ((wC7.stripe.paymentIntents.find? (fun p => p.id = "pi1")).bind
        (fun p => p.latest_charge)) = some "chB" ∧
    ((RefundApi.handler wC7 5 "POST" { uid := some "u1" }).1).stripe.refunds.map
        (fun r => r.charge) = ["chA"] ∧
    ((RefundApiB.handler wC7 5 "POST" { uid := some "u1" }).1).stripe.refunds.map
        (fun r => r.charge) = ["chB"] := by
  decide

/-- C7 (amended): the three-step preference order — explicit charge id,
else the most recent paid invoice's charge via its payment intent, else the
customer's most recent charge — is implemented by the invoice-aware refund
variant; the variant at `src/pages/api/subscription/refund.ts` skips the
invoice step and resolves only explicit charge id, else most recent charge.
In both, when nothing resolves the request fails with the no-charge error
and no refund is created; a created refund targets exactly the resolved
charge. -/
theorem refund_charge_resolution_order (w : World) (now : Nat)
    (body : RefundBody) (uid cust : String)
    (huid : jsStrTruthy body.uid = some uid)
    (hcust : jsStrTruthy (((w.db.users.find? (fun p => p.1 = uid)).map (fun p => p.2)).bind
        (fun u => u.stripeCustomerId)) = some cust) :
    (∀ c, jsStrTruthy body.chargeId = some c →
       RefundApi.handler w now "POST" body
         = RefundApi.refundCreateAndAudit w now uid c body.amount ∧
       RefundApiB.handler w now "POST" body
         = RefundApi.refundCreateAndAudit w now uid c body.amount) ∧
    (jsStrTruthy body.chargeId = none →
       (∀ ch, (w.stripe.charges.filter (fun c => c.customer = some cust)).head? = some ch →
          RefundApi.handler w now "POST" body
            = RefundApi.refundCreateAndAudit w now uid ch.id body.amount) ∧
       ((w.stripe.charges.filter (fun c => c.customer = some cust)).head? = none →
          RefundApi.handler w now "POST" body = (w, .noCharge))) ∧
    (jsStrTruthy body.chargeId = none →
       ∀ piId pi c,
         ((w.stripe.invoices.filter (fun i => i.customer = cust ∧ i.status = "paid")).head?.bind
            (fun i => jsStrTruthy i.payment_intent)) = some piId →
         w.stripe.paymentIntents.find? (fun p => p.id = piId) = some pi →
         pi.latest_charge = some c →
         RefundApiB.handler w now "POST" body
           = RefundApi.refundCreateAndAudit w now uid c body.amount) ∧
    (jsStrTruthy body.chargeId = none →
       ∀ piId pi,
         ((w.stripe.invoices.filter (fun i => i.customer = cust ∧ i.status = "paid")).head?.bind
            (fun i => jsStrTruthy i.payment_intent)) = some piId →
         w.stripe.paymentIntents.find? (fun p => p.id = piId) = some pi →
         pi.latest_charge = none →
         ((∀ ch, (w.stripe.charges.filter (fun c => c.customer = some cust)).head? = some ch →
             RefundApiB.handler w now "POST" body
               = RefundApi.refundCreateAndAudit w now uid ch.id body.amount) ∧
          ((w.stripe.charges.filter (fun c => c.customer = some cust)).head? = none →
             RefundApiB.handler w now "POST" body = (w, .noCharge)))) ∧
    (jsStrTruthy body.chargeId = none →
       ((w.stripe.invoices.filter (fun i => i.customer = cust ∧ i.status = "paid")).head?.bind
          (fun i => jsStrTruthy i.payment_intent)) = none →
       ((∀ ch, (w.stripe.charges.filter (fun c => c.customer = some cust)).head? = some ch →
           RefundApiB.handler w now "POST" body
             = RefundApi.refundCreateAndAudit w now uid ch.id body.amount) ∧
        ((w.stripe.charges.filter (fun c => c.customer = some cust)).head? = none →
           RefundApiB.handler w now "POST" body = (w, .noCharge)))) ∧
    (∀ u2 c am, w.stripe.charges.find? (fun x => x.id = c) = none →
       RefundApi.refundCreateAndAudit w now u2 c am = (w, .err500 "No such charge")) ∧
    (∀ u2 c am ch, w.stripe.charges.find? (fun x => x.id = c) = some ch →
       ∃ r, ((RefundApi.refundCreateAndAudit w now u2 c am).1).stripe.refunds
           = w.stripe.refunds ++ [r] ∧ r.charge = c) := by
  have hpost : ¬("POST" ≠ "POST") := by simp
  refine ⟨?_, ?_, ?_, ?_, ?_, ?_, ?_⟩
  · intro c hc
    constructor
    · unfold RefundApi.handler
      rw [if_neg hpost]
      simp only [huid, hcust, hc]
    · unfold RefundApiB.handler
      rw [if_neg hpost]
      simp only [huid, hcust, hc]
  · intro hc
    constructor
    · intro ch hch
      unfold RefundApi.handler
      rw [if_neg hpost]
      simp only [huid, hcust, hc, hch]
    · intro hch
      unfold RefundApi.handler
      rw [if_neg hpost]
      simp only [huid, hcust, hc, hch]
  · intro hc piId pi c hpi hfind hlatest
    unfold RefundApiB.handler
    rw [if_neg hpost]
    simp only [huid, hcust, hc, hpi, hfind, hlatest]
  · intro hc piId pi hpi hfind hlatest
    constructor
    · intro ch hch
      unfold RefundApiB.handler
      rw [if_neg hpost]
      simp only [huid, hcust, hc, hpi, hfind, hlatest, hch, Option.map_some']
    · intro hch
      unfold RefundApiB.handler
      rw [if_neg hpost]
      simp only [huid, hcust, hc, hpi, hfind, hlatest, hch, Option.map_none']
  · intro hc hpi
    constructor
    · intro ch hch
      unfold RefundApiB.handler
      rw [if_neg hpost]
      simp only [huid, hcust, hc, hpi, hch, Option.map_some']
    · intro hch
      unfold RefundApiB.handler
      rw [if_neg hpost]
      simp only [huid, hcust, hc, hpi, hch, Option.map_none']
  · intro u2 c am hfind
    unfold RefundApi.refundCreateAndAudit
    simp only [hfind]
  · intro u2 c am ch hfind
    unfold RefundApi.refundCreateAndAudit
    simp only [hfind]
    exact ⟨_, rfl, rfl⟩

/-- C7 witness: at the concrete world `wC7` with no explicit charge id, the
invoice-aware variant refunds the invoice's charge `chB` while the deployed
variant refunds the most recent charge `chA`. -/
theorem refund_charge_resolution_order_witness :
    jsStrTruthy (RefundBody.mk (some "u1") none none).uid = some "u1" ∧
    RefundApiB.handler wC7 5 "POST" { uid := some "u1" }
      = RefundApi.refundCreateAndAudit wC7 5 "u1" "chB" none ∧
    RefundApi.handler wC7 5 "POST" { uid := some "u1" }
      = RefundApi.refundCreateAndAudit wC7 5 "u1" "chA" none :=
  ⟨by decide,
   (refund_charge_resolution_order wC7 5 { uid := some "u1" } "u1" "cus1"
       (by decide) (by rfl)).2.2.1 (by decide) "pi1"
       { id := "pi1", latest_charge := some "chB" } "chB" (by rfl) (by rfl) (by rfl),
   ((refund_charge_resolution_order wC7 5 { uid := some "u1" } "u1" "cus1"
       (by decide) (by rfl)).2.1 (by decide)).1
       { id := "chA", customer := some "cus1", amount := 500 } (by rfl)⟩

-- ---- C8 --------------------------------------------------------------------

theorem jsStrTruthy_some_inv {o : Option String} {s : String}
    (h : jsStrTruthy o = some s) : o = some s ∧ s ≠ "" := by
  cases o with
  | none => cases h
  | some t =>
    by_cases ht : t = ""
    · subst ht
      cases h
    · have hA : jsStrTruthy (some t) = some t := by
        unfold jsStrTruthy
        split
        · rename_i heq
          injection heq with heq
          exact absurd heq ht
        · rename_i u heq
          injection heq with heq
          rw [heq]
        · rename_i heq
          cases heq
      rw [hA] at h
      cases h
      exact ⟨rfl, ht⟩

namespace Checkout

/-- A truthy own `PRICE_MAP` entry is also truthy under the full JavaScript
lookup: the three tier names are own keys and not `Object.prototype`
members. -/
theorem priceMapGet_of_priceMap {cfg : Config} {t s : String}
    (h : jsStrTruthy (priceMap cfg t) = some s) :
    jsPropTruthy (priceMapGet cfg t) = some (JsProp.str s) := by
  obtain ⟨ho, hs⟩ := jsStrTruthy_some_inv h
  unfold priceMap at ho
  split at ho
  all_goals first
    | cases ho
    | (unfold priceMapGet jsPropTruthy
       simp [ho, hs])

end Checkout

/-- C8 counterexample: the selector `"constructor"` maps to no configured
price identifier, yet the handler does not fail with the unknown-tier
error: the inherited `Object.prototype.constructor` member is truthy, so
the `if (!price)` guard at checkout.ts:20 is bypassed and the request
instead dies in the vendor call, with the catch block sending no response
at all. -/
theorem checkout_proto_tier_counterexample :
    Checkout.priceMap cfgW "constructor" = none ∧
    jsOrStrD (some "constructor") "ADOB_SENSE" = "constructor" ∧
    Checkout.handler cfgW wW 5 "GET" "text/html"
      { tier := some "constructor", uid := some "u1" } = (wW, .errorNoReply) ∧
    (Checkout.handler cfgW wW 5 "GET" "text/html"
      { tier := some "constructor", uid := some "u1" }).2 ≠ .unknownTier := by
  decide

/-- C8 (amended): under JavaScript lookup semantics the checkout handler
answers 400 unknown-tier exactly for selectors whose `PRICE_MAP` lookup is
falsy — selectors that are neither a configured tier name nor an
`Object.prototype` member name — with the whole world unchanged; with a
truthy lookup and no user id it answers 401 with the world unchanged; a
missing user id never changes the world (so no session is created in
either failure case); and with a truthy lookup the unknown-tier response
is never produced, even for a prototype-member selector that maps to no
configured price. -/
theorem checkout_guards (cfg : Config) (w : World) (now : Nat)
    (method accept : String) (q : Checkout.Query) :
    (Checkout.jsPropTruthy (Checkout.priceMapGet cfg (jsOrStrD q.tier "ADOB_SENSE")) = none →
       Checkout.handler cfg w now method accept q = (w, .unknownTier)) ∧
    (∀ p, Checkout.jsPropTruthy (Checkout.priceMapGet cfg (jsOrStrD q.tier "ADOB_SENSE")) = some p →
       jsStrTruthy q.uid = none →
       Checkout.handler cfg w now method accept q = (w, .authRequired)) ∧
    (jsStrTruthy q.uid = none →
       ((Checkout.handler cfg w now method accept q).1) = w) ∧
    (∀ p, Checkout.jsPropTruthy (Checkout.priceMapGet cfg (jsOrStrD q.tier "ADOB_SENSE")) = some p →
       (Checkout.handler cfg w now method accept q).2 ≠ .unknownTier) ∧
    Checkout.Resp.statusCode .unknownTier = 400 ∧
    Checkout.Resp.statusCode .authRequired = 401 := by
  have huidred : ∀ (h : jsStrTruthy q.uid = none), jsOrStrD q.uid "" = "" := by
    intro h
    unfold jsOrStrD
    rw [h]
    rfl
  refine ⟨?_, ?_, ?_, ?_, rfl, rfl⟩
  · intro h
    unfold Checkout.handler
    simp only [h]
  · intro p hp hu
    unfold Checkout.handler
    simp only [hp, huidred hu, if_true]
  · intro hu
    by_cases hp : Checkout.jsPropTruthy (Checkout.priceMapGet cfg (jsOrStrD q.tier "ADOB_SENSE")) = none
    · unfold Checkout.handler
      simp only [hp]
    · rcases Option.ne_none_iff_exists'.mp hp with ⟨p, hpp⟩
      unfold Checkout.handler
      simp only [hpp, huidred hu, if_true]
  · intro p hp
    unfold Checkout.handler
    simp only [hp]
    by_cases hu : jsOrStrD q.uid "" = ""
    · rw [if_pos hu]
      simp
    · rw [if_neg hu]
      try dsimp only
      repeat' split
      all_goals simp

/-- C8 witness: the amended guards at a concrete unknown selector (400
unknown-tier), plus the prototype-member selector `"constructor"`, whose
truthy lookup provably never yields the unknown-tier response. -/
theorem checkout_guards_witness :
    Checkout.jsPropTruthy (Checkout.priceMapGet cfgW (jsOrStrD (some "NOPE") "ADOB_SENSE")) = none ∧
    Checkout.handler cfgW wW 5 "GET" "text/html" { tier := some "NOPE" } = (wW, .unknownTier) ∧
    Checkout.Resp.statusCode .unknownTier = 400 ∧
    (Checkout.handler cfgW wW 5 "GET" "text/html"
      { tier := some "constructor", uid := some "u1" }).2 ≠ .unknownTier :=
  ⟨by decide,
   (checkout_guards cfgW wW 5 "GET" "text/html" { tier := some "NOPE" }).1 (by decide),
   (checkout_guards cfgW wW 5 "GET" "text/html" { tier := some "NOPE" }).2.2.2.2.1,
   (checkout_guards cfgW wW 5 "GET" "text/html"
      { tier := some "constructor", uid := some "u1" }).2.2.2.1
     (Checkout.JsProp.protoMember "constructor") (by decide)⟩

-- ---- C9 --------------------------------------------------------------------

/-- C9: at most one Stripe customer is ever created per user.  Both the
checkout initiator and the customer-creation helper first consult the
identifier stored on the user record: when one is stored they create no
customer (and the helper returns the stored id unchanged); only when none
is stored do they create exactly one customer, tagged with the uid, and
persist its id back onto the user record. -/
theorem customer_created_at_most_once (cfg : Config) (w : World) (now : Nat)
    (method accept : String) (q : Checkout.Query) (price uid : String)
    (email : Option String)
    (hprice : jsStrTruthy (Checkout.priceMap cfg (jsOrStrD q.tier "ADOB_SENSE")) = some price)
    (huid : jsStrTruthy q.uid = some uid) :
    (∀ c, jsStrTruthy (((w.db.users.find? (fun p => p.1 = uid)).map (fun p => p.2)).bind
          (fun u => u.stripeCustomerId)) = some c →
       ((Checkout.handler cfg w now method accept q).1).stripe.customers
         = w.stripe.customers ∧
       ((Checkout.handler cfg w now method accept q).1).db = w.db) ∧
    (jsStrTruthy (((w.db.users.find? (fun p => p.1 = uid)).map (fun p => p.2)).bind
          (fun u => u.stripeCustomerId)) = none →
       ∃ cust, ((Checkout.handler cfg w now method accept q).1).stripe.customers
           = w.stripe.customers ++ [cust] ∧
         cust.metadata_uid = some uid ∧
         (getUser ((Checkout.handler cfg w now method accept q).1).db uid).stripeCustomerId
           = some cust.id) ∧
    (∀ c, (w.db.users.find? (fun p => p.1 = uid)).bind
          (fun p => jsStrTruthy p.2.stripeCustomerId) = some c →
       CreateCustomer.createStripeCustomerForUser w now uid email = (w, c)) ∧
    ((w.db.users.find? (fun p => p.1 = uid)).bind
          (fun p => jsStrTruthy p.2.stripeCustomerId) = none →
       ∃ cust, ((CreateCustomer.createStripeCustomerForUser w now uid email).1).stripe.customers
           = w.stripe.customers ++ [cust] ∧
         cust.metadata_uid = some uid ∧
         (getUser ((CreateCustomer.createStripeCustomerForUser w now uid email).1).db uid).stripeCustomerId
           = some cust.id ∧
         (CreateCustomer.createStripeCustomerForUser w now uid email).2 = cust.id) := by
  have huidred : jsOrStrD q.uid "" = uid := by
    unfold jsOrStrD
    rw [huid]
    rfl
  have hne : uid ≠ "" := jsStrTruthy_ne_empty huid
  have hpg := Checkout.priceMapGet_of_priceMap hprice
  refine ⟨?_, ?_, ?_, ?_⟩
  · intro c hc
    unfold Checkout.handler
    simp only [hpg, huidred, if_neg hne, hc]
    split <;> exact ⟨by trivial, by trivial⟩
  · intro hc
    refine ⟨{ id := "cus_" ++ toString w.stripe.nextId
              email := jsStrTruthy (((w.db.users.find? (fun p => p.1 = uid)).map
                (fun p => p.2)).bind (fun u => u.email))
              metadata_uid := some uid }, ?_⟩
    unfold Checkout.handler
    simp only [hpg, huidred, if_neg hne, hc]
    split
    all_goals exact ⟨by trivial, by trivial, by simp [getUser_setMerge_self]⟩
  · intro c hc
    unfold CreateCustomer.createStripeCustomerForUser
    simp only [hc]
  · intro hc
    refine ⟨{ id := "cus_" ++ toString w.stripe.nextId
              email := email
              metadata_uid := some uid }, ?_⟩
    unfold CreateCustomer.createStripeCustomerForUser
    simp only [hc]
    exact ⟨by trivial, by trivial, by simp [getUser_setMerge_self], by trivial⟩

/-- A world for the C9 witness: user `u1` exists with no stored customer
id; user `u2` already stores one. -/
def wC9 : World :=
  { db := { users := [("u1", { email := some "a@b.c" }),
                      ("u2", { stripeCustomerId := some "cus9" })] } }

/-- C9 witness: creating lazily for `u1` adds exactly one tagged customer
and persists its id; the helper returns `u2`'s stored id without touching
anything. -/
theorem customer_created_at_most_once_witness :
    jsStrTruthy (Checkout.Query.mk (some "ADOB_SENSE") (some "u1")).uid = some "u1" ∧
    (∃ cust, ((Checkout.handler { priceAdobSense := some "pA" } wC9 5 "POST" ""
          { tier := some "ADOB_SENSE", uid := some "u1" }).1).stripe.customers
        = wC9.stripe.customers ++ [cust] ∧
      cust.metadata_uid = some "u1" ∧
      (getUser ((Checkout.handler { priceAdobSense := some "pA" } wC9 5 "POST" ""
          { tier := some "ADOB_SENSE", uid := some "u1" }).1).db "u1").stripeCustomerId
        = some cust.id) ∧
    CreateCustomer.createStripeCustomerForUser wC9 5 "u2" none = (wC9, "cus9") :=
  ⟨by decide,
   (customer_created_at_most_once { priceAdobSense := some "pA" } wC9 5 "POST" ""
       { tier := some "ADOB_SENSE", uid := some "u1" } "pA" "u1" none
       (by decide) (by decide)).2.1 (by decide),
   (customer_created_at_most_once { priceAdobSense := some "pA" } wC9 5 "POST" ""
       { tier := some "ADOB_SENSE", uid := some "u2" } "pA" "u2" none
       (by decide) (by decide)).2.2.1 "cus9" (by decide)⟩

-- ---- C10 -------------------------------------------------------------------

/-- C10: a successful `startFreeTrial` (`lib/subscriptions.ts`) on a user
who has not consumed the trial writes `subscriptionType = "FREETRIAL"`,
`status = "ACTIVE"`, marks `trialUsed`, sets the trial end to exactly
7 days (7 × 86400000 ms) after the current time, stores that end as the
ISO rendering in `subEndIso` (and the legacy `subscriptionEndDate`), and
returns the same ISO string; the 7-day duration is a literal of the
function, not a parameter. -/
theorem startFreeTrial_seven_days (db : DB) (now : Nat) (uid : String)
    (h : (getUser db uid).trialUsed ≠ some true) :
    (Subscriptions.startFreeTrial db now uid).2
      = .ok (toISOStringModel (addDays now 7)) ∧
    (getUser ((Subscriptions.startFreeTrial db now uid).1) uid).subscriptionType
      = some "FREETRIAL" ∧
    (getUser ((Subscriptions.startFreeTrial db now uid).1) uid).status
      = some "ACTIVE" ∧
    (getUser ((Subscriptions.startFreeTrial db now uid).1) uid).subEndIso
      = some (toISOStringModel (addDays now 7)) ∧
    (getUser ((Subscriptions.startFreeTrial db now uid).1) uid).subscriptionEndDate
      = some (DateVal.iso (toISOStringModel (addDays now 7))) ∧
    (getUser ((Subscriptions.startFreeTrial db now uid).1) uid).trialUsed
      = some true ∧
    addDays now 7 = now + 7 * 86400000 := by
  unfold Subscriptions.startFreeTrial
  rw [if_neg h]
  refine ⟨rfl, ?_, ?_, ?_, ?_, ?_, rfl⟩
  all_goals simp [getUser_setMerge_self]

/-- C10 witness: the successful-trial property for fresh user `u2` at
`now = 5`. -/
theorem startFreeTrial_seven_days_witness :
    (getUser dbTrial "u2").trialUsed ≠ some true ∧
    ((Subscriptions.startFreeTrial dbTrial 5 "u2").2
       = .ok (toISOStringModel (addDays 5 7)) ∧
     (getUser ((Subscriptions.startFreeTrial dbTrial 5 "u2").1) "u2").subscriptionType
       = some "FREETRIAL" ∧
     addDays 5 7 = 5 + 7 * 86400000) :=
  ⟨by decide,
   (startFreeTrial_seven_days dbTrial 5 "u2" (by decide)).1,
   (startFreeTrial_seven_days dbTrial 5 "u2" (by decide)).2.1,
   (startFreeTrial_seven_days dbTrial 5 "u2" (by decide)).2.2.2.2.2.2⟩
